import Mathlib

/-!
# Verification of the exam application (`streamlit_app.py`)

Shallow embedding of the core logic of the single-file Streamlit exam
application: the question-bank loader (`extract_questions_from_data`,
`validate_question_structure`, `parse_uploaded_json`,
`load_questions_from_json`, `get_fallback_exam_questions`), the exam state
machine driven by the UI handlers in `main`, and the pickle-based session
store (`save_session_state` / `load_session_state`).

Python values flowing through the loader are raw `json` values (dicts,
lists, strings, ints, ...); they are embedded as the inductive `JsonValue`.
Question records are used by the application as raw dicts, so the exam
state holds `List JsonValue` for its questions, exactly as
`st.session_state.questions` does.
-/

namespace ExamApp

/-- Embedding of the Python/JSON values the application manipulates.
Objects keep field order (Python dicts preserve insertion order and have
unique keys); numbers in the question files are integers. -/
inductive JsonValue : Type where
  | null : JsonValue
  | bool (b : Bool) : JsonValue
  | num (n : Int) : JsonValue
  | str (s : String) : JsonValue
  | arr (xs : List JsonValue) : JsonValue
  | obj (fields : List (String × JsonValue)) : JsonValue

/-- Python `key in d` for a dict `d`: membership among the keys. -/
def hasKey (fields : List (String × JsonValue)) (key : String) : Bool :=
  fields.any (fun p => p.1 = key)

/-- Python `d[key]` for a dict `d`: the value stored under `key`
(keys are unique, so the first match is the value). -/
def lookupKey (fields : List (String × JsonValue)) (key : String) :
    Option JsonValue :=
  (fields.find? (fun p => p.1 = key)).map (fun p => p.2)

/-- Embeds `validate_question_structure` (src lines 100-106): the candidate must be
a dict containing the keys `question`, `options` and `correct_answer`
(field presence only, no deeper checks). -/
def validate_question_structure (question : JsonValue) : Bool :=
  match question with
  | .obj fields =>
      [("question" : String), "options", "correct_answer"].all
        (fun field => hasKey fields field)
  | _ => false

/-- The fixed priority list of keys searched by
`extract_questions_from_data` (src lines 75-84). -/
def possible_keys : List String :=
  [ "programming_languages_exam_questions"
  , "chemistry_questions"
  , "questions"
  , "quiz_questions"
  , "exam_questions"
  , "question_bank"
  , "items" ]

/-- The `for key in possible_keys` loop (src lines 86-90): the first key
present in the dict whose value is a non-empty list with a validating
first element yields that list; otherwise the loop falls through. -/
def findKeyQuestions (fields : List (String × JsonValue)) :
    List String → Option (List JsonValue)
  | [] => none
  | key :: rest =>
      match lookupKey fields key with
      | some (.arr (q :: qs)) =>
          if validate_question_structure q then some (q :: qs)
          else findKeyQuestions fields rest
      | _ => findKeyQuestions fields rest

/-- The `for key, value in data.items()` loop (src lines 93-96): the first
value that is a non-empty list with a validating first element is
returned; at the end of the loop the function returns `None`. -/
def scanValues : List (String × JsonValue) → Option (List JsonValue)
  | [] => none
  | (_, .arr (q :: qs)) :: rest =>
      if validate_question_structure q then some (q :: qs)
      else scanValues rest
  | _ :: rest => scanValues rest

/-- Embeds `extract_questions_from_data` (src lines 68-98).  A top-level list with
a validating first element is returned whole.  A dict is searched first by
`possible_keys`, then by scanning all values.  Any other input — including
a list whose first element does not validate, on which the later
`key in data` / `data.items()` lines raise — makes the callers treat the
load as failed, which is modelled as `none` (both callers catch the
exception: `load_questions_from_json` line 64, `parse_uploaded_json`
line 1802). -/
def extract_questions_from_data (data : JsonValue) :
    Option (List JsonValue) :=
  match data with
  | .arr (q :: qs) =>
      if validate_question_structure q then some (q :: qs) else none
  | .obj fields =>
      match findKeyQuestions fields possible_keys with
      | some qs => some qs
      | none => scanValues fields
  | _ => none

/- Embedding of the 125 question records inside the single wrapper object
returned by `get_fallback_exam_questions` (src lines 110-1739), one
definition per record. -/

def fallback_record_001 : JsonValue :=
  JsonValue.obj
    [ ("id", JsonValue.num 1)
    , ("topic", JsonValue.str ("Work Readiness"))
    , ("question", JsonValue.str ("What is the main reason that having a degree alone is no longer enough to stand out in the job market?"))
    , ("options", JsonValue.obj
      [ ("A", JsonValue.str ("Most companies no longer hire based on qualifications"))
      , ("B", JsonValue.str ("Jobs that previously didn\x27t require degrees are now being filled by graduates"))
      , ("C", JsonValue.str ("Degrees have become less valuable academically"))
      , ("D", JsonValue.str ("Employers prefer people without formal education")) ])
    , ("correct_answer", JsonValue.str ("B"))
    , ("explanation", JsonValue.str ("The PDF explains that many roles that historically didn\x27t require degrees (e.g., clerks, managers) are now filled by graduates, so a degree alone no longer differentiates candidates.")) ]

def fallback_record_002 : JsonValue :=
  JsonValue.obj
    [ ("id", JsonValue.num 2)
    , ("topic", JsonValue.str ("Work Readiness"))
    , ("question", JsonValue.str ("Work readiness is BEST defined as:"))
    , ("options", JsonValue.obj
      [ ("A", JsonValue.str ("Mastery of technical job skills"))
      , ("B", JsonValue.str ("Having a university degree and job experience"))
      , ("C", JsonValue.str ("The skills, aptitudes, and attitudes needed for workplace culture and demands"))
      , ("D", JsonValue.str ("Being ready to start a business")) ])
    , ("correct_answer", JsonValue.str ("C"))
    , ("explanation", JsonValue.str ("The document defines work readiness as the combination of skills, aptitudes, and attitudes employers expect, not solely technical qualifications.")) ]

def fallback_record_003 : JsonValue :=
  JsonValue.obj
    [ ("id", JsonValue.num 3)
    , ("topic", JsonValue.str ("Work Readiness"))
    , ("question", JsonValue.str ("Which of the following is NOT part of work readiness skills?"))
    , ("options", JsonValue.obj
      [ ("A", JsonValue.str ("World-of-work awareness"))
      , ("B", JsonValue.str ("Career planning and decision making"))
      , ("C", JsonValue.str ("High-level coding ability"))
      , ("D", JsonValue.str ("Job search techniques")) ])
    , ("correct_answer", JsonValue.str ("C"))
    , ("explanation", JsonValue.str ("Work readiness emphasizes transferable and career-preparation skills; specific technical abilities like advanced coding are hard skills, not core work readiness components as listed.")) ]

def fallback_record_004 : JsonValue :=
  JsonValue.obj
    [ ("id", JsonValue.num 4)
    , ("topic", JsonValue.str ("Self Awareness"))
    , ("question", JsonValue.str ("What does self-awareness primarily help you do in your career?"))
    , ("options", JsonValue.obj
      [ ("A", JsonValue.str ("Hide your weaknesses from employers"))
      , ("B", JsonValue.str ("Understand your strengths and weaknesses to grow"))
      , ("C", JsonValue.str ("Avoid difficult jobs"))
      , ("D", JsonValue.str ("Perform only technical tasks")) ])
    , ("correct_answer", JsonValue.str ("B"))
    , ("explanation", JsonValue.str ("The text stresses self-awareness allows you to identify strengths to leverage and weaknesses to improve, aiding career development.")) ]

def fallback_record_005 : JsonValue :=
  JsonValue.obj
    [ ("id", JsonValue.num 5)
    , ("topic", JsonValue.str ("Self Awareness"))
    , ("question", JsonValue.str ("Why do employers value candidates with self-awareness?"))
    , ("options", JsonValue.obj
      [ ("A", JsonValue.str ("They expect candidates to be flawless"))
      , ("B", JsonValue.str ("Self-awareness makes you admit you have no weaknesses"))
      , ("C", JsonValue.str ("It enables you to identify, improve, and use strengths effectively"))
      , ("D", JsonValue.str ("It guarantees you never make mistakes")) ])
    , ("correct_answer", JsonValue.str ("C"))
    , ("explanation", JsonValue.str ("Employers like candidates who understand their capabilities and areas to develop because such candidates can grow and adapt.")) ]

def fallback_record_006 : JsonValue :=
  JsonValue.obj
    [ ("id", JsonValue.num 6)
    , ("topic", JsonValue.str ("Branding Yourself"))
    , ("question", JsonValue.str ("Personal branding helps you:"))
    , ("options", JsonValue.obj
      [ ("A", JsonValue.str ("Convince employers you are perfect"))
      , ("B", JsonValue.str ("Communicate your selling points and stand out"))
      , ("C", JsonValue.str ("Focus only on your academic achievements"))
      , ("D", JsonValue.str ("Avoid competition")) ])
    , ("correct_answer", JsonValue.str ("B"))
    , ("explanation", JsonValue.str ("The PDF notes that personal branding communicates who you are and your selling points, helping employers see your fit.")) ]

def fallback_record_007 : JsonValue :=
  JsonValue.obj
    [ ("id", JsonValue.num 7)
    , ("topic", JsonValue.str ("Branding Yourself"))
    , ("question", JsonValue.str ("Which of the following is TRUE about personal branding?"))
    , ("options", JsonValue.obj
      [ ("A", JsonValue.str ("It is only useful for people in business"))
      , ("B", JsonValue.str ("It makes it easier for employers to determine your suitability"))
      , ("C", JsonValue.str ("It makes you appear arrogant"))
      , ("D", JsonValue.str ("It should hide your weaknesses")) ])
    , ("correct_answer", JsonValue.str ("B"))
    , ("explanation", JsonValue.str ("The document explains a strong personal brand helps employers quickly assess suitability for roles.")) ]

def fallback_record_008 : JsonValue :=
  JsonValue.obj
    [ ("id", JsonValue.num 8)
    , ("topic", JsonValue.str ("Soft Skills"))
    , ("question", JsonValue.str ("Which of the following is considered a soft skill?"))
    , ("options", JsonValue.obj
      [ ("A", JsonValue.str ("Mechanical engineering"))
      , ("B", JsonValue.str ("HTML/CSS"))
      , ("C", JsonValue.str ("Teamwork"))
      , ("D", JsonValue.str ("Data analysis")) ])
    , ("correct_answer", JsonValue.str ("C"))
    , ("explanation", JsonValue.str ("Soft skills are interpersonal and character traits; teamwork is a classic soft skill listed in the PDF.")) ]

def fallback_record_009 : JsonValue :=
  JsonValue.obj
    [ ("id", JsonValue.num 9)
    , ("topic", JsonValue.str ("Soft Skills"))
    , ("question", JsonValue.str ("Why are soft skills important to employers?"))
    , ("options", JsonValue.obj
      [ ("A", JsonValue.str ("They are easier to teach than technical skills"))
      , ("B", JsonValue.str ("They define personality and work behavior"))
      , ("C", JsonValue.str ("They can replace academic qualifications"))
      , ("D", JsonValue.str ("They guarantee promotions")) ])
    , ("correct_answer", JsonValue.str ("B"))
    , ("explanation", JsonValue.str ("The PDF highlights that soft skills shape how you work with others and are crucial selection criteria alongside qualifications.")) ]

def fallback_record_010 : JsonValue :=
  JsonValue.obj
    [ ("id", JsonValue.num 10)
    , ("topic", JsonValue.str ("Problem Solving"))
    , ("question", JsonValue.str ("What does the \x27I\x27 in the IDEAL problem-solving framework stand for?"))
    , ("options", JsonValue.obj
      [ ("A", JsonValue.str ("Interpret"))
      , ("B", JsonValue.str ("Identify"))
      , ("C", JsonValue.str ("Initiate"))
      , ("D", JsonValue.str ("Implement")) ])
    , ("correct_answer", JsonValue.str ("B"))
    , ("explanation", JsonValue.str ("IDEAL stands for Identify, Define, Explore, Act, and Look back — the PDF lists \x27Identify\x27 as the first step.")) ]

def fallback_record_011 : JsonValue :=
  JsonValue.obj
    [ ("id", JsonValue.num 11)
    , ("topic", JsonValue.str ("Problem Solving"))
    , ("question", JsonValue.str ("Problem-solving requires a combination of:"))
    , ("options", JsonValue.obj
      [ ("A", JsonValue.str ("Teamwork alone"))
      , ("B", JsonValue.str ("Reasoning, logic, creativity, and calmness"))
      , ("C", JsonValue.str ("Academic grades and qualifications"))
      , ("D", JsonValue.str ("Physical strength and speed")) ])
    , ("correct_answer", JsonValue.str ("B"))
    , ("explanation", JsonValue.str ("The text emphasizes that reasoning, creative thinking, and composure are needed for effective problem solving.")) ]

def fallback_record_012 : JsonValue :=
  JsonValue.obj
    [ ("id", JsonValue.num 12)
    , ("topic", JsonValue.str ("Job Search Techniques"))
    , ("question", JsonValue.str ("Why is applying online alone not the most effective job search strategy?"))
    , ("options", JsonValue.obj
      [ ("A", JsonValue.str ("Most applicants do not use the internet"))
      , ("B", JsonValue.str ("Online applications have less than 3% chance of leading to an interview"))
      , ("C", JsonValue.str ("Companies no longer post jobs online"))
      , ("D", JsonValue.str ("Recruiters prefer paper applications")) ])
    , ("correct_answer", JsonValue.str ("B"))
    , ("explanation", JsonValue.str ("The PDF notes that online-only approaches yield poor interview rates; active networking and referrals improve outcomes.")) ]

def fallback_record_013 : JsonValue :=
  JsonValue.obj
    [ ("id", JsonValue.num 13)
    , ("topic", JsonValue.str ("Job Search Techniques"))
    , ("question", JsonValue.str ("According to research, job seekers are five times more likely to be hired through:"))
    , ("options", JsonValue.obj
      [ ("A", JsonValue.str ("Cold emails"))
      , ("B", JsonValue.str ("Online applications"))
      , ("C", JsonValue.str ("Referrals"))
      , ("D", JsonValue.str ("Random job boards")) ])
    , ("correct_answer", JsonValue.str ("C"))
    , ("explanation", JsonValue.str ("The guide cites studies showing referrals significantly increase hiring chances.")) ]

def fallback_record_014 : JsonValue :=
  JsonValue.obj
    [ ("id", JsonValue.num 14)
    , ("topic", JsonValue.str ("Recruiters"))
    , ("question", JsonValue.str ("Which statement is TRUE about external recruiters?"))
    , ("options", JsonValue.obj
      [ ("A", JsonValue.str ("They work for job seekers"))
      , ("B", JsonValue.str ("They work for employers"))
      , ("C", JsonValue.str ("They guarantee job placement"))
      , ("D", JsonValue.str ("They only recruit interns")) ])
    , ("correct_answer", JsonValue.str ("B"))
    , ("explanation", JsonValue.str ("The PDF clarifies recruiters represent employers and aim to find the best candidates for roles.")) ]

def fallback_record_015 : JsonValue :=
  JsonValue.obj
    [ ("id", JsonValue.num 15)
    , ("topic", JsonValue.str ("CV Writing"))
    , ("question", JsonValue.str ("What is the full meaning of CV?"))
    , ("options", JsonValue.obj
      [ ("A", JsonValue.str ("Career Version"))
      , ("B", JsonValue.str ("Curriculum Vitae"))
      , ("C", JsonValue.str ("Candidate Value"))
      , ("D", JsonValue.str ("Career Verification")) ])
    , ("correct_answer", JsonValue.str ("B"))
    , ("explanation", JsonValue.str ("CV stands for Curriculum Vitae, Latin for \x27course of life,\x27 as stated in the text.")) ]

def fallback_record_016 : JsonValue :=
  JsonValue.obj
    [ ("id", JsonValue.num 16)
    , ("topic", JsonValue.str ("CV Writing"))
    , ("question", JsonValue.str ("Which of the following should NOT be added to a CV?"))
    , ("options", JsonValue.obj
      [ ("A", JsonValue.str ("Professional title"))
      , ("B", JsonValue.str ("Relevant work experience"))
      , ("C", JsonValue.str ("A detailed list of all your life events"))
      , ("D", JsonValue.str ("Education history")) ])
    , ("correct_answer", JsonValue.str ("C"))
    , ("explanation", JsonValue.str ("The guide advises brevity and relevance, discouraging exhaustive life histories on a CV.")) ]

def fallback_record_017 : JsonValue :=
  JsonValue.obj
    [ ("id", JsonValue.num 17)
    , ("topic", JsonValue.str ("CV Formatting"))
    , ("question", JsonValue.str ("Which font is recommended for CV writing?"))
    , ("options", JsonValue.obj
      [ ("A", JsonValue.str ("Comic Sans"))
      , ("B", JsonValue.str ("Arial or Times New Roman"))
      , ("C", JsonValue.str ("Brush Script"))
      , ("D", JsonValue.str ("Stencil")) ])
    , ("correct_answer", JsonValue.str ("B"))
    , ("explanation", JsonValue.str ("The PDF lists standard, legible fonts such as Arial and Times New Roman as good choices for CVs.")) ]

def fallback_record_018 : JsonValue :=
  JsonValue.obj
    [ ("id", JsonValue.num 18)
    , ("topic", JsonValue.str ("CV Writing"))
    , ("question", JsonValue.str ("Why should graphics be minimized on a CV?"))
    , ("options", JsonValue.obj
      [ ("A", JsonValue.str ("Recruiters prefer fully decorated CVs"))
      , ("B", JsonValue.str ("Graphics may make the CV hard to print and read"))
      , ("C", JsonValue.str ("Graphics improve professionalism"))
      , ("D", JsonValue.str ("Graphics make the CV shorter")) ])
    , ("correct_answer", JsonValue.str ("B"))
    , ("explanation", JsonValue.str ("Excessive graphics can hurt readability and printability; the PDF advises white space for clarity.")) ]

def fallback_record_019 : JsonValue :=
  JsonValue.obj
    [ ("id", JsonValue.num 19)
    , ("topic", JsonValue.str ("Interview Skills"))
    , ("question", JsonValue.str ("What is the main purpose of an interview?"))
    , ("options", JsonValue.obj
      [ ("A", JsonValue.str ("To impress the employer with big words"))
      , ("B", JsonValue.str ("To determine whether both the job and candidate are a good fit"))
      , ("C", JsonValue.str ("To test your memory"))
      , ("D", JsonValue.str ("To negotiate salary immediately")) ])
    , ("correct_answer", JsonValue.str ("B"))
    , ("explanation", JsonValue.str ("The document describes interviews as two-way conversations to assess fit for both parties.")) ]

def fallback_record_020 : JsonValue :=
  JsonValue.obj
    [ ("id", JsonValue.num 20)
    , ("topic", JsonValue.str ("Interview Skills"))
    , ("question", JsonValue.str ("Employers decide whether to hire a candidate in approximately:"))
    , ("options", JsonValue.obj
      [ ("A", JsonValue.str ("30 minutes"))
      , ("B", JsonValue.str ("1 hour"))
      , ("C", JsonValue.str ("5 minutes"))
      , ("D", JsonValue.str ("24 hours")) ])
    , ("correct_answer", JsonValue.str ("C"))
    , ("explanation", JsonValue.str ("The PDF mentions research suggesting interviewers form impressions in roughly five minutes.")) ]

def fallback_record_021 : JsonValue :=
  JsonValue.obj
    [ ("id", JsonValue.num 21)
    , ("topic", JsonValue.str ("Interview Skills"))
    , ("question", JsonValue.str ("Which of the following is a key competency employers want?"))
    , ("options", JsonValue.obj
      [ ("A", JsonValue.str ("Ability to gossip"))
      , ("B", JsonValue.str ("Critical thinking"))
      , ("C", JsonValue.str ("Perfect handwriting"))
      , ("D", JsonValue.str ("Ability to work without supervision")) ])
    , ("correct_answer", JsonValue.str ("B"))
    , ("explanation", JsonValue.str ("Critical thinking is listed among the seven key competencies necessary for workplace success.")) ]

def fallback_record_022 : JsonValue :=
  JsonValue.obj
    [ ("id", JsonValue.num 22)
    , ("topic", JsonValue.str ("Public Speaking"))
    , ("question", JsonValue.str ("Public speaking is described as:"))
    , ("options", JsonValue.obj
      [ ("A", JsonValue.str ("Speaking only during debates"))
      , ("B", JsonValue.str ("An act and art of speaking before an audience"))
      , ("C", JsonValue.str ("Speaking only to large crowds"))
      , ("D", JsonValue.str ("Talking casually to friends")) ])
    , ("correct_answer", JsonValue.str ("B"))
    , ("explanation", JsonValue.str ("The guide defines public speaking as both an act and an art of speaking before an audience.")) ]

def fallback_record_023 : JsonValue :=
  JsonValue.obj
    [ ("id", JsonValue.num 23)
    , ("topic", JsonValue.str ("Public Speaking"))
    , ("question", JsonValue.str ("Which is NOT one of the five steps of eloquent speech preparation?"))
    , ("options", JsonValue.obj
      [ ("A", JsonValue.str ("Invention"))
      , ("B", JsonValue.str ("Memory"))
      , ("C", JsonValue.str ("Delivery"))
      , ("D", JsonValue.str ("Decoration")) ])
    , ("correct_answer", JsonValue.str ("D"))
    , ("explanation", JsonValue.str ("The five steps are Invention, Arrangement, Style, Memory, and Delivery; \x27Decoration\x27 is not listed.")) ]

def fallback_record_024 : JsonValue :=
  JsonValue.obj
    [ ("id", JsonValue.num 24)
    , ("topic", JsonValue.str ("Presentation Skills"))
    , ("question", JsonValue.str ("Which of the following is recommended to calm nerves before presenting?"))
    , ("options", JsonValue.obj
      [ ("A", JsonValue.str ("Speaking as fast as possible"))
      , ("B", JsonValue.str ("Deep breathing"))
      , ("C", JsonValue.str ("Avoiding water"))
      , ("D", JsonValue.str ("Memorizing every exact word")) ])
    , ("correct_answer", JsonValue.str ("B"))
    , ("explanation", JsonValue.str ("The PDF recommends deep breathing to counteract adrenaline and steady the voice.")) ]

def fallback_record_025 : JsonValue :=
  JsonValue.obj
    [ ("id", JsonValue.num 25)
    , ("topic", JsonValue.str ("Presentation Skills"))
    , ("question", JsonValue.str ("What is the purpose of using cue cards in a presentation?"))
    , ("options", JsonValue.obj
      [ ("A", JsonValue.str ("To read your speech word-for-word"))
      , ("B", JsonValue.str ("To trigger your mind about what comes next"))
      , ("C", JsonValue.str ("To entertain the audience"))
      , ("D", JsonValue.str ("To avoid making eye contact")) ])
    , ("correct_answer", JsonValue.str ("B"))
    , ("explanation", JsonValue.str ("Cue cards are advised so you have prompts to keep the flow without sounding memorized or robotic.")) ]

def fallback_record_026 : JsonValue :=
  JsonValue.obj
    [ ("id", JsonValue.num 26)
    , ("topic", JsonValue.str ("Advanced Work Readiness"))
    , ("question", JsonValue.str ("A recent graduate wants to demonstrate work readiness beyond academic credentials. Which action best shows proactive career control?"))
    , ("options", JsonValue.obj
      [ ("A", JsonValue.str ("Waiting for job postings to appear"))
      , ("B", JsonValue.str ("Relying solely on online applications"))
      , ("C", JsonValue.str ("Creating a targeted networking plan and informational interviews"))
      , ("D", JsonValue.str ("Applying to every job regardless of fit")) ])
    , ("correct_answer", JsonValue.str ("C"))
    , ("explanation", JsonValue.str ("The PDF emphasizes being proactive—networking and informational interviews provide insight and uncover hidden opportunities.")) ]

def fallback_record_027 : JsonValue :=
  JsonValue.obj
    [ ("id", JsonValue.num 27)
    , ("topic", JsonValue.str ("Networking Strategy"))
    , ("question", JsonValue.str ("You have limited connections. According to the guide, what\x27s the highest-value first step to leverage networking?"))
    , ("options", JsonValue.obj
      [ ("A", JsonValue.str ("Mass messaging strangers on LinkedIn"))
      , ("B", JsonValue.str ("Reconnecting with former managers and colleagues for referrals"))
      , ("C", JsonValue.str ("Posting frequent random updates on social media"))
      , ("D", JsonValue.str ("Only attending in-person conferences")) ])
    , ("correct_answer", JsonValue.str ("B"))
    , ("explanation", JsonValue.str ("The text recommends reconnecting with known contacts (managers, colleagues) and asking for referrals as a top strategy.")) ]

def fallback_record_028 : JsonValue :=
  JsonValue.obj
    [ ("id", JsonValue.num 28)
    , ("topic", JsonValue.str ("LinkedIn Optimization"))
    , ("question", JsonValue.str ("Which change to a LinkedIn profile most directly improves discovery by recruiters?"))
    , ("options", JsonValue.obj
      [ ("A", JsonValue.str ("Add a long list of hobbies in the About section"))
      , ("B", JsonValue.str ("Use a compelling headline that specifies the roles you seek"))
      , ("C", JsonValue.str ("Hide your work experience"))
      , ("D", JsonValue.str ("Only list education")) ])
    , ("correct_answer", JsonValue.str ("B"))
    , ("explanation", JsonValue.str ("The guide advises customizing your headline to indicate role types, which helps recruiters find you.")) ]

def fallback_record_029 : JsonValue :=
  JsonValue.obj
    [ ("id", JsonValue.num 29)
    , ("topic", JsonValue.str ("Referral Ethics"))
    , ("question", JsonValue.str ("A friend offers to refer you but asks you to exaggerate your role at a past employer. What\x27s the best response?"))
    , ("options", JsonValue.obj
      [ ("A", JsonValue.str ("Agree to exaggerate to secure the role"))
      , ("B", JsonValue.str ("Decline the referral to avoid dishonesty"))
      , ("C", JsonValue.str ("Ask your friend to refer you honestly and offer to provide accurate examples"))
      , ("D", JsonValue.str ("Edit your CV to remove the employer entirely")) ])
    , ("correct_answer", JsonValue.str ("C"))
    , ("explanation", JsonValue.str ("The PDF stresses honesty on CVs; ask for a legitimate referral and provide truthful accomplishments.")) ]

def fallback_record_030 : JsonValue :=
  JsonValue.obj
    [ ("id", JsonValue.num 30)
    , ("topic", JsonValue.str ("Targeted Applications"))
    , ("question", JsonValue.str ("When tailoring your CV for a role, which approach is MOST consistent with the guide\x27s advice?"))
    , ("options", JsonValue.obj
      [ ("A", JsonValue.str ("Use the same generic CV for all applications"))
      , ("B", JsonValue.str ("Highlight measurable achievements that mirror the job description"))
      , ("C", JsonValue.str ("Include every duty from every past job"))
      , ("D", JsonValue.str ("List only soft skills")) ])
    , ("correct_answer", JsonValue.str ("B"))
    , ("explanation", JsonValue.str ("The guide recommends focusing on measurable, relevant achievements and tailoring to the job\x27s requirements.")) ]

def fallback_record_031 : JsonValue :=
  JsonValue.obj
    [ ("id", JsonValue.num 31)
    , ("topic", JsonValue.str ("CV Structure Analysis"))
    , ("question", JsonValue.str ("Which CV section is described as the best place to \x27introduce yourself\x27 and summarize your achievements?"))
    , ("options", JsonValue.obj
      [ ("A", JsonValue.str ("Education"))
      , ("B", JsonValue.str ("Personal profile / summary"))
      , ("C", JsonValue.str ("Work experience"))
      , ("D", JsonValue.str ("Hobbies")) ])
    , ("correct_answer", JsonValue.str ("B"))
    , ("explanation", JsonValue.str ("The personal profile or summary at the top of the CV introduces you and highlights key achievements concisely, per the PDF.")) ]

def fallback_record_032 : JsonValue :=
  JsonValue.obj
    [ ("id", JsonValue.num 32)
    , ("topic", JsonValue.str ("CV Formatting Standards"))
    , ("question", JsonValue.str ("Which formatting choice would most likely reduce readability according to the guide?"))
    , ("options", JsonValue.obj
      [ ("A", JsonValue.str ("One-inch margins"))
      , ("B", JsonValue.str ("Consistent date format"))
      , ("C", JsonValue.str ("Multiple fonts and heavy graphics"))
      , ("D", JsonValue.str ("Single spacing with clear headings")) ])
    , ("correct_answer", JsonValue.str ("C"))
    , ("explanation", JsonValue.str ("The document warns against gimmicky graphics and inconsistent formatting that hurt readability.")) ]

def fallback_record_033 : JsonValue :=
  JsonValue.obj
    [ ("id", JsonValue.num 33)
    , ("topic", JsonValue.str ("Work Experience Writing"))
    , ("question", JsonValue.str ("Which work-experience bullet best follows the guide\x27s recommendation?"))
    , ("options", JsonValue.obj
      [ ("A", JsonValue.str ("Responsible for customer service"))
      , ("B", JsonValue.str ("Managed customer service team"))
      , ("C", JsonValue.str ("Led a 5-person customer service team, improving response time by 30%"))
      , ("D", JsonValue.str ("Worked with customers daily")) ])
    , ("correct_answer", JsonValue.str ("C"))
    , ("explanation", JsonValue.str ("The PDF promotes measurable achievements phrased with action verbs rather than vague duty listings.")) ]

def fallback_record_034 : JsonValue :=
  JsonValue.obj
    [ ("id", JsonValue.num 34)
    , ("topic", JsonValue.str ("Hard vs Soft Skills"))
    , ("question", JsonValue.str ("A candidate for a marketing role lacks technical analytics tools skills but excels in communication. According to the guide, what should the candidate emphasize?"))
    , ("options", JsonValue.obj
      [ ("A", JsonValue.str ("Only hard skills"))
      , ("B", JsonValue.str ("Soft skills and ability to learn technical tools quickly"))
      , ("C", JsonValue.str ("Omit all weaknesses from the CV"))
      , ("D", JsonValue.str ("Claim expertise in analytics")) ])
    , ("correct_answer", JsonValue.str ("B"))
    , ("explanation", JsonValue.str ("The guide says soft skills (like communication) are valuable and one can be trained in technical skills; emphasize strengths and learning ability.")) ]

def fallback_record_035 : JsonValue :=
  JsonValue.obj
    [ ("id", JsonValue.num 35)
    , ("topic", JsonValue.str ("CV Extras"))
    , ("question", JsonValue.str ("Which \x27additional section\x27 on a CV could most effectively demonstrate industry engagement?"))
    , ("options", JsonValue.obj
      [ ("A", JsonValue.str ("Hobbies"))
      , ("B", JsonValue.str ("Conferences attended and professional affiliations"))
      , ("C", JsonValue.str ("Favorite movies"))
      , ("D", JsonValue.str ("High school clubs")) ])
    , ("correct_answer", JsonValue.str ("B"))
    , ("explanation", JsonValue.str ("The PDF suggests sections like conferences and affiliations highlight ongoing industry involvement and learning.")) ]

def fallback_record_036 : JsonValue :=
  JsonValue.obj
    [ ("id", JsonValue.num 36)
    , ("topic", JsonValue.str ("Interview Preparation"))
    , ("question", JsonValue.str ("Which preparation step directly addresses the interviewer\x27s expectation that you understand the company?"))
    , ("options", JsonValue.obj
      [ ("A", JsonValue.str ("Memorize a generic elevator pitch"))
      , ("B", JsonValue.str ("Research the company\x27s website, news, and values"))
      , ("C", JsonValue.str ("Prepare only salary negotiation points"))
      , ("D", JsonValue.str ("Bring an extra CV copy")) ])
    , ("correct_answer", JsonValue.str ("B"))
    , ("explanation", JsonValue.str ("The guide stresses knowing the employer (researching company info) so you can demonstrate genuine interest and fit.")) ]

def fallback_record_037 : JsonValue :=
  JsonValue.obj
    [ ("id", JsonValue.num 37)
    , ("topic", JsonValue.str ("Interview Behavior"))
    , ("question", JsonValue.str ("During an in-person interview, which nonverbal behavior is LEAST likely to make a good first impression?"))
    , ("options", JsonValue.obj
      [ ("A", JsonValue.str ("Firm handshake and eye contact"))
      , ("B", JsonValue.str ("Warm smile and good posture"))
      , ("C", JsonValue.str ("Slouching and lack of eye contact"))
      , ("D", JsonValue.str ("Polite greeting")) ])
    , ("correct_answer", JsonValue.str ("C"))
    , ("explanation", JsonValue.str ("The PDF notes first impressions rely on posture, eye contact and a firm handshake; slouching undermines this.")) ]

def fallback_record_038 : JsonValue :=
  JsonValue.obj
    [ ("id", JsonValue.num 38)
    , ("topic", JsonValue.str ("Interview Responses"))
    , ("question", JsonValue.str ("When asked \x27What is your greatest weakness?\x27, the best answer per the guide should:"))
    , ("options", JsonValue.obj
      [ ("A", JsonValue.str ("Deny having any weaknesses"))
      , ("B", JsonValue.str ("Name a weakness and explain steps you are taking to improve it"))
      , ("C", JsonValue.str ("Accuse previous employers of unfairness"))
      , ("D", JsonValue.str ("Refuse to answer")) ])
    , ("correct_answer", JsonValue.str ("B"))
    , ("explanation", JsonValue.str ("The PDF recommends acknowledging a real area for improvement and describing how you\x27re addressing it.")) ]

def fallback_record_039 : JsonValue :=
  JsonValue.obj
    [ ("id", JsonValue.num 39)
    , ("topic", JsonValue.str ("Interview Types"))
    , ("question", JsonValue.str ("Which interview type is described as having more back-and-forth conversation and requires several prepared talking points?"))
    , ("options", JsonValue.obj
      [ ("A", JsonValue.str ("Traditional interview"))
      , ("B", JsonValue.str ("Conversational interview"))
      , ("C", JsonValue.str ("Phone screening"))
      , ("D", JsonValue.str ("Panel interview")) ])
    , ("correct_answer", JsonValue.str ("B"))
    , ("explanation", JsonValue.str ("The document notes conversational interviews are more interactive and you should prepare key points to discuss.")) ]

def fallback_record_040 : JsonValue :=
  JsonValue.obj
    [ ("id", JsonValue.num 40)
    , ("topic", JsonValue.str ("Phone & Virtual Interviews"))
    , ("question", JsonValue.str ("Which tip is most important specifically for virtual interviews according to the PDF?"))
    , ("options", JsonValue.obj
      [ ("A", JsonValue.str ("Wear casual clothes"))
      , ("B", JsonValue.str ("Know how to use the conferencing software and test your setup"))
      , ("C", JsonValue.str ("Don\x27t worry about background noise"))
      , ("D", JsonValue.str ("Use a low-resolution camera")) ])
    , ("correct_answer", JsonValue.str ("B"))
    , ("explanation", JsonValue.str ("Virtual interviews require technical preparation—testing audio/video and the software to avoid disruptions.")) ]

def fallback_record_041 : JsonValue :=
  JsonValue.obj
    [ ("id", JsonValue.num 41)
    , ("topic", JsonValue.str ("Follow-up Etiquette"))
    , ("question", JsonValue.str ("Which follow-up action is recommended within 24 hours after an interview?"))
    , ("options", JsonValue.obj
      [ ("A", JsonValue.str ("Send a tailored thank-you email to each interviewer"))
      , ("B", JsonValue.str ("Post about the interview on social media"))
      , ("C", JsonValue.str ("Call the CEO demanding a decision"))
      , ("D", JsonValue.str ("Send multiple identical messages to HR")) ])
    , ("correct_answer", JsonValue.str ("A"))
    , ("explanation", JsonValue.str ("The PDF advises a well-written thank-you note within 24 hours as professional courtesy demonstrating interest.")) ]

def fallback_record_042 : JsonValue :=
  JsonValue.obj
    [ ("id", JsonValue.num 42)
    , ("topic", JsonValue.str ("Behavioral Interviewing"))
    , ("question", JsonValue.str ("Using the STAR/CAR method, what does the \x27R\x27 stand for and why is it important?"))
    , ("options", JsonValue.obj
      [ ("A", JsonValue.str ("Review; to remind the interviewer of the question"))
      , ("B", JsonValue.str ("Result; to show the outcomes and impact of your actions"))
      , ("C", JsonValue.str ("Research; to show you researched the company"))
      , ("D", JsonValue.str ("Repeat; to repeat the question")) ])
    , ("correct_answer", JsonValue.str ("B"))
    , ("explanation", JsonValue.str ("Result (or Result/Outcome) shows the measurable impact of your action—critical to convincing interviewers of your effectiveness.")) ]

def fallback_record_043 : JsonValue :=
  JsonValue.obj
    [ ("id", JsonValue.num 43)
    , ("topic", JsonValue.str ("Difficult Interview Scenarios"))
    , ("question", JsonValue.str ("If an interviewer presses for a skill you lack, the guide suggests you should:"))
    , ("options", JsonValue.obj
      [ ("A", JsonValue.str ("Lie about having the skill"))
      , ("B", JsonValue.str ("Admit the gap and highlight how you would learn or compensate"))
      , ("C", JsonValue.str ("Change the topic"))
      , ("D", JsonValue.str ("Remain silent")) ])
    , ("correct_answer", JsonValue.str ("B"))
    , ("explanation", JsonValue.str ("Honesty plus demonstrating a plan to learn or an alternative strength is the recommended approach in the document.")) ]

def fallback_record_044 : JsonValue :=
  JsonValue.obj
    [ ("id", JsonValue.num 44)
    , ("topic", JsonValue.str ("Presentation Design"))
    , ("question", JsonValue.str ("Which presentation tip aligns with the cognitive load advice given in the PDF?"))
    , ("options", JsonValue.obj
      [ ("A", JsonValue.str ("Use dense slides packed with text"))
      , ("B", JsonValue.str ("Keep slides simple and avoid reading them verbatim"))
      , ("C", JsonValue.str ("Use multiple fonts and flashy animations"))
      , ("D", JsonValue.str ("Include full paragraphs on each slide")) ])
    , ("correct_answer", JsonValue.str ("B"))
    , ("explanation", JsonValue.str ("The PDF recommends simplicity, mindful cognitive load, and not reading slides word-for-word to keep audiences engaged.")) ]

def fallback_record_045 : JsonValue :=
  JsonValue.obj
    [ ("id", JsonValue.num 45)
    , ("topic", JsonValue.str ("Public Speaking Myths"))
    , ("question", JsonValue.str ("Which statement reflects the PDF\x27s stance on public speaking ability?"))
    , ("options", JsonValue.obj
      [ ("A", JsonValue.str ("Great public speaking is purely an inborn talent"))
      , ("B", JsonValue.str ("Fear of public speaking is always negative"))
      , ("C", JsonValue.str ("Public speaking skills can be developed; fear can be managed"))
      , ("D", JsonValue.str ("Only extroverts can become good speakers")) ])
    , ("correct_answer", JsonValue.str ("C"))
    , ("explanation", JsonValue.str ("The guide debunks the myths that speaking is only innate and that fear is wholly negative, encouraging practice and techniques to improve.")) ]

def fallback_record_046 : JsonValue :=
  JsonValue.obj
    [ ("id", JsonValue.num 46)
    , ("topic", JsonValue.str ("Audience Engagement"))
    , ("question", JsonValue.str ("Which tactic best increases audience engagement during a presentation?"))
    , ("options", JsonValue.obj
      [ ("A", JsonValue.str ("Use long monologues without pauses"))
      , ("B", JsonValue.str ("Ask targeted questions and invite participation"))
      , ("C", JsonValue.str ("Avoid eye contact to reduce nervousness"))
      , ("D", JsonValue.str ("Read slides exactly as written")) ])
    , ("correct_answer", JsonValue.str ("B"))
    , ("explanation", JsonValue.str ("The PDF recommends engaging the audience through questions and participation to keep interest and create rapport.")) ]

def fallback_record_047 : JsonValue :=
  JsonValue.obj
    [ ("id", JsonValue.num 47)
    , ("topic", JsonValue.str ("Nervousness Techniques"))
    , ("question", JsonValue.str ("Which physiological technique helps control adrenaline-related presentation symptoms?"))
    , ("options", JsonValue.obj
      [ ("A", JsonValue.str ("Rapid shallow breaths"))
      , ("B", JsonValue.str ("Deep controlled breathing"))
      , ("C", JsonValue.str ("Holding your breath"))
      , ("D", JsonValue.str ("Drinking caffeine immediately before speaking")) ])
    , ("correct_answer", JsonValue.str ("B"))
    , ("explanation", JsonValue.str ("Deep breathing counteracts adrenaline effects and stabilizes voice and calmness, per the guide.")) ]

def fallback_record_048 : JsonValue :=
  JsonValue.obj
    [ ("id", JsonValue.num 48)
    , ("topic", JsonValue.str ("Presentation Structure"))
    , ("question", JsonValue.str ("Which structural approach prevents sounding robotic if you forget your lines?"))
    , ("options", JsonValue.obj
      [ ("A", JsonValue.str ("Memorizing every word"))
      , ("B", JsonValue.str ("Using key phrase cue cards and a clear structure"))
      , ("C", JsonValue.str ("Not preparing at all"))
      , ("D", JsonValue.str ("Reading slides verbatim")) ])
    , ("correct_answer", JsonValue.str ("B"))
    , ("explanation", JsonValue.str ("The PDF advises structuring presentations with cues and key phrases rather than strict memorization to stay natural.")) ]

def fallback_record_049 : JsonValue :=
  JsonValue.obj
    [ ("id", JsonValue.num 49)
    , ("topic", JsonValue.str ("Interview Evaluation Criteria"))
    , ("question", JsonValue.str ("Which interviewer goal is emphasized as most important when assessing a candidate?"))
    , ("options", JsonValue.obj
      [ ("A", JsonValue.str ("Assessing the candidate\x27s color preferences"))
      , ("B", JsonValue.str ("Determining whether the candidate has the necessary skills and fits team personality"))
      , ("C", JsonValue.str ("Testing social media following"))
      , ("D", JsonValue.str ("Finding someone who will quit soon")) ])
    , ("correct_answer", JsonValue.str ("B"))
    , ("explanation", JsonValue.str ("The PDF notes interviewers want to know both capability and cultural/team fit to ensure longevity and performance.")) ]

def fallback_record_050 : JsonValue :=
  JsonValue.obj
    [ ("id", JsonValue.num 50)
    , ("topic", JsonValue.str ("Job Market Strategy"))
    , ("question", JsonValue.str ("Which approach does the guide label as the \x27back door\x27 to increase interview chances?"))
    , ("options", JsonValue.obj
      [ ("A", JsonValue.str ("Spamming recruiters"))
      , ("B", JsonValue.str ("Finding and contacting a hiring manager or recruiter directly"))
      , ("C", JsonValue.str ("Only using public job boards"))
      , ("D", JsonValue.str ("Waiting for postings to appear")) ])
    , ("correct_answer", JsonValue.str ("B"))
    , ("explanation", JsonValue.str ("The \x27back door\x27 refers to direct, human connections—contacting hiring managers/recruiters to boost visibility.")) ]

def fallback_record_051 : JsonValue :=
  JsonValue.obj
    [ ("id", JsonValue.num 51)
    , ("topic", JsonValue.str ("Recruiter Relations"))
    , ("question", JsonValue.str ("When building relationships with recruiters, which expectation should you keep in mind?"))
    , ("options", JsonValue.obj
      [ ("A", JsonValue.str ("Recruiters work for you and will find any job you want"))
      , ("B", JsonValue.str ("Recruiters are independent and may only have opportunities that fit their clients\x27 needs"))
      , ("C", JsonValue.str ("Recruiters always place candidates for free"))
      , ("D", JsonValue.str ("Recruiters guarantee interviews")) ])
    , ("correct_answer", JsonValue.str ("B"))
    , ("explanation", JsonValue.str ("The PDF makes clear recruiters work for employers and place candidates when roles match, not as a service to job-seekers.")) ]

def fallback_record_052 : JsonValue :=
  JsonValue.obj
    [ ("id", JsonValue.num 52)
    , ("topic", JsonValue.str ("Targeting Companies"))
    , ("question", JsonValue.str ("The guide advocates a proactive strategy targeting specific companies. Which action is part of this approach?"))
    , ("options", JsonValue.obj
      [ ("A", JsonValue.str ("Sending a generic CV to HR"))
      , ("B", JsonValue.str ("Using LinkedIn to find the department head and requesting a conversation"))
      , ("C", JsonValue.str ("Applying randomly to roles"))
      , ("D", JsonValue.str ("Posting irrelevant content")) ])
    , ("correct_answer", JsonValue.str ("B"))
    , ("explanation", JsonValue.str ("The suggested proactive approach is finding decision-makers and requesting conversations rather than generic applications.")) ]

def fallback_record_053 : JsonValue :=
  JsonValue.obj
    [ ("id", JsonValue.num 53)
    , ("topic", JsonValue.str ("Networking Follow-up"))
    , ("question", JsonValue.str ("After a networking conversation, what follow-up is most likely to maintain the relationship?"))
    , ("options", JsonValue.obj
      [ ("A", JsonValue.str ("Never contacting them again"))
      , ("B", JsonValue.str ("Sending a thank-you message and offering help or resources"))
      , ("C", JsonValue.str ("Immediately asking for a job"))
      , ("D", JsonValue.str ("Posting about them without consent")) ])
    , ("correct_answer", JsonValue.str ("B"))
    , ("explanation", JsonValue.str ("The guide recommends nurturing relationships—thank-you messages and reciprocal value help sustain connections.")) ]

def fallback_record_054 : JsonValue :=
  JsonValue.obj
    [ ("id", JsonValue.num 54)
    , ("topic", JsonValue.str ("Job Search Metrics"))
    , ("question", JsonValue.str ("Which is a realistic expectation cited by the guide when relying solely on online applications?"))
    , ("options", JsonValue.obj
      [ ("A", JsonValue.str ("You will receive offers within a week"))
      , ("B", JsonValue.str ("Less than 3% chance of getting an interview"))
      , ("C", JsonValue.str ("You\x27ll be preferred over referrals"))
      , ("D", JsonValue.str ("It guarantees a career change")) ])
    , ("correct_answer", JsonValue.str ("B"))
    , ("explanation", JsonValue.str ("The text notes that online-only applications typically yield very low interview rates—often under 3%.")) ]

def fallback_record_055 : JsonValue :=
  JsonValue.obj
    [ ("id", JsonValue.num 55)
    , ("topic", JsonValue.str ("CV Honesty"))
    , ("question", JsonValue.str ("What is the serious risk mentioned if you falsify academic grades on your CV?"))
    , ("options", JsonValue.obj
      [ ("A", JsonValue.str ("You might not get the job"))
      , ("B", JsonValue.str ("It can be considered degree fraud with legal consequences"))
      , ("C", JsonValue.str ("No one will notice"))
      , ("D", JsonValue.str ("It improves your credibility")) ])
    , ("correct_answer", JsonValue.str ("B"))
    , ("explanation", JsonValue.str ("The PDF warns that falsifying qualifications can lead to charges like degree fraud and severe consequences.")) ]

def fallback_record_056 : JsonValue :=
  JsonValue.obj
    [ ("id", JsonValue.num 56)
    , ("topic", JsonValue.str ("CV Contact Info"))
    , ("question", JsonValue.str ("Which contact detail is advised to include on a CV?"))
    , ("options", JsonValue.obj
      [ ("A", JsonValue.str ("Professional email and LinkedIn profile"))
      , ("B", JsonValue.str ("Every past address you\x27ve ever had"))
      , ("C", JsonValue.str ("Personal social media with unprofessional content"))
      , ("D", JsonValue.str ("Your parent\x27s phone number only")) ])
    , ("correct_answer", JsonValue.str ("A"))
    , ("explanation", JsonValue.str ("The guide recommends including clear professional contact info like email and LinkedIn for recruiters to reach you.")) ]

def fallback_record_057 : JsonValue :=
  JsonValue.obj
    [ ("id", JsonValue.num 57)
    , ("topic", JsonValue.str ("Personal Profile"))
    , ("question", JsonValue.str ("When should a candidate use a CV objective instead of a CV summary?"))
    , ("options", JsonValue.obj
      [ ("A", JsonValue.str ("When the candidate is a seasoned professional"))
      , ("B", JsonValue.str ("When the candidate has little relevant work experience"))
      , ("C", JsonValue.str ("For all CVs regardless of experience"))
      , ("D", JsonValue.str ("When the candidate wants to omit achievements")) ])
    , ("correct_answer", JsonValue.str ("B"))
    , ("explanation", JsonValue.str ("The PDF states objectives suit those with limited experience; summaries fit experienced candidates highlighting achievements.")) ]

def fallback_record_058 : JsonValue :=
  JsonValue.obj
    [ ("id", JsonValue.num 58)
    , ("topic", JsonValue.str ("Action Verbs"))
    , ("question", JsonValue.str ("Which verb usage best follows the guide\x27s recommendation for CV language?"))
    , ("options", JsonValue.obj
      [ ("A", JsonValue.str ("Responsible for preparing reports"))
      , ("B", JsonValue.str ("Prepared monthly financial reports that reduced closing time by 20%"))
      , ("C", JsonValue.str ("Was involved in team reporting"))
      , ("D", JsonValue.str ("Did many reporting tasks")) ])
    , ("correct_answer", JsonValue.str ("B"))
    , ("explanation", JsonValue.str ("Using strong action verbs with measurable results is favored over vague responsibility statements.")) ]

def fallback_record_059 : JsonValue :=
  JsonValue.obj
    [ ("id", JsonValue.num 59)
    , ("topic", JsonValue.str ("Interview First Impressions"))
    , ("question", JsonValue.str ("Which practice is recommended to ensure you arrive prepared at an interview?"))
    , ("options", JsonValue.obj
      [ ("A", JsonValue.str ("Arrive exactly at the start time"))
      , ("B", JsonValue.str ("Arrive about 10 minutes early"))
      , ("C", JsonValue.str ("Arrive late to make an entrance"))
      , ("D", JsonValue.str ("Only log on to a virtual interview at the scheduled time")) ])
    , ("correct_answer", JsonValue.str ("B"))
    , ("explanation", JsonValue.str ("The guide recommends arriving 10 minutes early to gather thoughts and avoid stress from late arrival.")) ]

def fallback_record_060 : JsonValue :=
  JsonValue.obj
    [ ("id", JsonValue.num 60)
    , ("topic", JsonValue.str ("Behavioral Examples"))
    , ("question", JsonValue.str ("Which response exemplifies the STAR method for a leadership question?"))
    , ("options", JsonValue.obj
      [ ("A", JsonValue.str ("I am a leader; I do great work"))
      , ("B", JsonValue.str ("When our project stalled (S), I organized a team meeting (T), delegated tasks and set milestones (A), and we completed on time with a 10% efficiency gain (R)"))
      , ("C", JsonValue.str ("I like leading teams"))
      , ("D", JsonValue.str ("I once led a team")) ])
    , ("correct_answer", JsonValue.str ("B"))
    , ("explanation", JsonValue.str ("An effective STAR answer outlines Situation, Task, Action, and Result with concrete outcomes.")) ]

def fallback_record_061 : JsonValue :=
  JsonValue.obj
    [ ("id", JsonValue.num 61)
    , ("topic", JsonValue.str ("Presentation Visuals"))
    , ("question", JsonValue.str ("Which slide design choice directly follows the PDF\x27s \x27use effective imagery\x27 rule?"))
    , ("options", JsonValue.obj
      [ ("A", JsonValue.str ("Use low-quality clip art everywhere"))
      , ("B", JsonValue.str ("Include a single high-impact, relevant image per key slide"))
      , ("C", JsonValue.str ("Avoid images entirely"))
      , ("D", JsonValue.str ("Fill slide with background pattern and text")) ])
    , ("correct_answer", JsonValue.str ("B"))
    , ("explanation", JsonValue.str ("The guide recommends effective, relevant imagery that supports rather than distracts from the message.")) ]

def fallback_record_062 : JsonValue :=
  JsonValue.obj
    [ ("id", JsonValue.num 62)
    , ("topic", JsonValue.str ("Public Speaking Delivery"))
    , ("question", JsonValue.str ("Which delivery habit weakens credibility according to the guide?"))
    , ("options", JsonValue.obj
      [ ("A", JsonValue.str ("Maintaining steady eye contact"))
      , ("B", JsonValue.str ("Using filler words excessively (e.g., \x27um\x27, \x27like\x27)"))
      , ("C", JsonValue.str ("Varying vocal tone"))
      , ("D", JsonValue.str ("Using purposeful hand gestures")) ])
    , ("correct_answer", JsonValue.str ("B"))
    , ("explanation", JsonValue.str ("Excessive filler words undermine perceived confidence; the text advises practicing to minimize them.")) ]

def fallback_record_063 : JsonValue :=
  JsonValue.obj
    [ ("id", JsonValue.num 63)
    , ("topic", JsonValue.str ("Interview Questions: \x27Tell me about yourself\x27"))
    , ("question", JsonValue.str ("What is the recommended length and focus for answering \x27Tell me about yourself\x27?"))
    , ("options", JsonValue.obj
      [ ("A", JsonValue.str ("10 minutes of life history"))
      , ("B", JsonValue.str ("30 seconds to 2 minutes focusing on recent roles, achievements and goals"))
      , ("C", JsonValue.str ("A one-word answer"))
      , ("D", JsonValue.str ("Only discuss personal hobbies")) ])
    , ("correct_answer", JsonValue.str ("B"))
    , ("explanation", JsonValue.str ("The guide advises a concise 30-second to 2-minute overview linking experience, achievements and goals relevant to the job.")) ]

def fallback_record_064 : JsonValue :=
  JsonValue.obj
    [ ("id", JsonValue.num 64)
    , ("topic", JsonValue.str ("Interview Questions: \x27Why us?\x27"))
    , ("question", JsonValue.str ("Which element makes an effective answer to \x27Why do you want to work for our company?\x27"))
    , ("options", JsonValue.obj
      [ ("A", JsonValue.str ("Generic praise about the company"))
      , ("B", JsonValue.str ("Specific examples from company research and how you can contribute"))
      , ("C", JsonValue.str ("Discuss salary expectations immediately"))
      , ("D", JsonValue.str ("Say you had no other options")) ])
    , ("correct_answer", JsonValue.str ("B"))
    , ("explanation", JsonValue.str ("Employers look for evidence of company research and clear connection between your skills and their needs.")) ]

def fallback_record_065 : JsonValue :=
  JsonValue.obj
    [ ("id", JsonValue.num 65)
    , ("topic", JsonValue.str ("Interview Red Flags"))
    , ("question", JsonValue.str ("Which interview behavior is a red flag for employers?"))
    , ("options", JsonValue.obj
      [ ("A", JsonValue.str ("Talking negatively about all previous employers"))
      , ("B", JsonValue.str ("Explaining a constructive learning from a past challenge"))
      , ("C", JsonValue.str ("Asking thoughtful questions at the end"))
      , ("D", JsonValue.str ("Being punctual")) ])
    , ("correct_answer", JsonValue.str ("A"))
    , ("explanation", JsonValue.str ("Speaking poorly of previous employers is unprofessional and signals potential attitude problems to hiring teams.")) ]

def fallback_record_066 : JsonValue :=
  JsonValue.obj
    [ ("id", JsonValue.num 66)
    , ("topic", JsonValue.str ("Information Sessions"))
    , ("question", JsonValue.str ("What is the key advantage of attending information sessions as a new graduate?"))
    , ("options", JsonValue.obj
      [ ("A", JsonValue.str ("They are evaluative tests"))
      , ("B", JsonValue.str ("They provide networking opportunities and company insight in a non-evaluative setting"))
      , ("C", JsonValue.str ("You always get hired on the spot"))
      , ("D", JsonValue.str ("They replace the need for interviews")) ])
    , ("correct_answer", JsonValue.str ("B"))
    , ("explanation", JsonValue.str ("The PDF notes information sessions let you build rapport and learn about companies without formal evaluation.")) ]

def fallback_record_067 : JsonValue :=
  JsonValue.obj
    [ ("id", JsonValue.num 67)
    , ("topic", JsonValue.str ("Industry Conferences"))
    , ("question", JsonValue.str ("Which behavior at an industry conference most aligns with the guide\x27s networking advice?"))
    , ("options", JsonValue.obj
      [ ("A", JsonValue.str ("Collect business cards without following up"))
      , ("B", JsonValue.str ("Engage in meaningful conversations and follow up afterwards"))
      , ("C", JsonValue.str ("Attend only social events with no professional purpose"))
      , ("D", JsonValue.str ("Skip sessions and only eat snacks")) ])
    , ("correct_answer", JsonValue.str ("B"))
    , ("explanation", JsonValue.str ("Meaningful engagement followed by follow-up fosters relationships—an emphasized strategy in the document.")) ]

def fallback_record_068 : JsonValue :=
  JsonValue.obj
    [ ("id", JsonValue.num 68)
    , ("topic", JsonValue.str ("Professional Organizations"))
    , ("question", JsonValue.str ("Joining professional organizations helps you primarily by:"))
    , ("options", JsonValue.obj
      [ ("A", JsonValue.str ("Guaranteeing a job"))
      , ("B", JsonValue.str ("Providing networking, knowledge and career advancement opportunities"))
      , ("C", JsonValue.str ("Replacing the need for a CV"))
      , ("D", JsonValue.str ("Eliminating the need to interview")) ])
    , ("correct_answer", JsonValue.str ("B"))
    , ("explanation", JsonValue.str ("The guide recommends joining professional bodies to gain connections, insights, and career growth.")) ]

def fallback_record_069 : JsonValue :=
  JsonValue.obj
    [ ("id", JsonValue.num 69)
    , ("topic", JsonValue.str ("References"))
    , ("question", JsonValue.str ("Which practice is recommended regarding references before applying for jobs?"))
    , ("options", JsonValue.obj
      [ ("A", JsonValue.str ("List random contacts without notice"))
      , ("B", JsonValue.str ("Contact referees in advance, update contact info, and brief them on your job search"))
      , ("C", JsonValue.str ("Never provide references"))
      , ("D", JsonValue.str ("Use fictional referees to improve chances")) ])
    , ("correct_answer", JsonValue.str ("B"))
    , ("explanation", JsonValue.str ("The PDF advises preparing and informing references so they can provide timely and relevant support.")) ]

def fallback_record_070 : JsonValue :=
  JsonValue.obj
    [ ("id", JsonValue.num 70)
    , ("topic", JsonValue.str ("Presentation Tips"))
    , ("question", JsonValue.str ("Which of the \x27Ten Tips\x27 specifically warns against reading from slides?"))
    , ("options", JsonValue.obj
      [ ("A", JsonValue.str ("Keep it simple"))
      , ("B", JsonValue.str ("Do not read your slides"))
      , ("C", JsonValue.str ("Use effective imagery"))
      , ("D", JsonValue.str ("Use black slides")) ])
    , ("correct_answer", JsonValue.str ("B"))
    , ("explanation", JsonValue.str ("One of the listed tips is explicitly \x27Do not read your slides\x27, emphasizing natural delivery and audience engagement.")) ]

def fallback_record_071 : JsonValue :=
  JsonValue.obj
    [ ("id", JsonValue.num 71)
    , ("topic", JsonValue.str ("Hard Interview Scenario"))
    , ("question", JsonValue.str ("You are asked in an interview to explain a project failure. What\x27s the best way to respond?"))
    , ("options", JsonValue.obj
      [ ("A", JsonValue.str ("Blame teammates and avoid responsibility"))
      , ("B", JsonValue.str ("Use STAR: describe the situation, your role, actions you took, and lessons learned with resulting improvement"))
      , ("C", JsonValue.str ("Say you never fail"))
      , ("D", JsonValue.str ("Refuse to answer")) ])
    , ("correct_answer", JsonValue.str ("B"))
    , ("explanation", JsonValue.str ("The guide recommends acknowledging challenges and focusing on actions taken and lessons learned to show growth.")) ]

def fallback_record_072 : JsonValue :=
  JsonValue.obj
    [ ("id", JsonValue.num 72)
    , ("topic", JsonValue.str ("CV Online Safety"))
    , ("question", JsonValue.str ("What safety advice does the guide give about posting your CV online?"))
    , ("options", JsonValue.obj
      [ ("A", JsonValue.str ("Always publish your home address"))
      , ("B", JsonValue.str ("Avoid including home address to reduce fraud risk while keeping contact methods safe"))
      , ("C", JsonValue.str ("Include every personal detail for transparency"))
      , ("D", JsonValue.str ("Share your CV on all public forums")) ])
    , ("correct_answer", JsonValue.str ("B"))
    , ("explanation", JsonValue.str ("The text cautions against posting home addresses publicly to prevent targeting by fraudsters.")) ]

def fallback_record_073 : JsonValue :=
  JsonValue.obj
    [ ("id", JsonValue.num 73)
    , ("topic", JsonValue.str ("Assessing Job Fit"))
    , ("question", JsonValue.str ("When evaluating if a job is right for you, which factor is LEAST relevant according to the guide?"))
    , ("options", JsonValue.obj
      [ ("A", JsonValue.str ("Company culture and mission"))
      , ("B", JsonValue.str ("Role responsibilities and growth prospects"))
      , ("C", JsonValue.str ("Immediate office snack options"))
      , ("D", JsonValue.str ("Location, salary, and lifestyle priorities")) ])
    , ("correct_answer", JsonValue.str ("C"))
    , ("explanation", JsonValue.str ("While perks can matter, the guide highlights core factors like culture, responsibilities, and lifestyle alignment as more important.")) ]

def fallback_record_074 : JsonValue :=
  JsonValue.obj
    [ ("id", JsonValue.num 74)
    , ("topic", JsonValue.str ("Interview Closing"))
    , ("question", JsonValue.str ("Which final action during an interview demonstrates interest and professionalism?"))
    , ("options", JsonValue.obj
      [ ("A", JsonValue.str ("Ask no questions and leave immediately"))
      , ("B", JsonValue.str ("Ask thoughtful questions about role expectations and next steps"))
      , ("C", JsonValue.str ("Demand a salary decision on the spot"))
      , ("D", JsonValue.str ("Critique the company policies")) ])
    , ("correct_answer", JsonValue.str ("B"))
    , ("explanation", JsonValue.str ("The guide recommends coming prepared with 3–6 questions to show interest and gather role information.")) ]

def fallback_record_075 : JsonValue :=
  JsonValue.obj
    [ ("id", JsonValue.num 75)
    , ("topic", JsonValue.str ("Public Speaking Practice"))
    , ("question", JsonValue.str ("Which rehearsal technique does the guide emphasize to improve presentations?"))
    , ("options", JsonValue.obj
      [ ("A", JsonValue.str ("Rehearse in front of a small audience and record yourself for feedback"))
      , ("B", JsonValue.str ("Never practice to stay spontaneous"))
      , ("C", JsonValue.str ("Only read slides to practice"))
      , ("D", JsonValue.str ("Avoid feedback at all costs")) ])
    , ("correct_answer", JsonValue.str ("A"))
    , ("explanation", JsonValue.str ("Practicing in front of others and reviewing recordings helps identify improvements and build confidence, per the PDF.")) ]

def fallback_record_076 : JsonValue :=
  JsonValue.obj
    [ ("id", JsonValue.num 76)
    , ("topic", JsonValue.str ("Presentation Time Management"))
    , ("question", JsonValue.str ("What is a practical way to structure a talk when time is limited?"))
    , ("options", JsonValue.obj
      [ ("A", JsonValue.str ("Cover every possible detail"))
      , ("B", JsonValue.str ("Select the most pertinent points and leave room for questions"))
      , ("C", JsonValue.str ("Speak as fast as possible to fit more content"))
      , ("D", JsonValue.str ("Read a transcript in full")) ])
    , ("correct_answer", JsonValue.str ("B"))
    , ("explanation", JsonValue.str ("The guide advises focusing on key points to keep talks concise and engaging when time is limited.")) ]

def fallback_record_077 : JsonValue :=
  JsonValue.obj
    [ ("id", JsonValue.num 77)
    , ("topic", JsonValue.str ("Interview Follow-up Strategy"))
    , ("question", JsonValue.str ("If you haven\x27t heard back two weeks after an interview, what\x27s the recommended next step?"))
    , ("options", JsonValue.obj
      [ ("A", JsonValue.str ("Send a polite follow-up email reiterating interest and asking for any updates"))
      , ("B", JsonValue.str ("Flood their inbox with multiple messages"))
      , ("C", JsonValue.str ("Assume rejection and never follow up"))
      , ("D", JsonValue.str ("Show up at the office unannounced")) ])
    , ("correct_answer", JsonValue.str ("A"))
    , ("explanation", JsonValue.str ("The PDF suggests polite and timely follow-up inquiries to maintain engagement without being pushy.")) ]

def fallback_record_078 : JsonValue :=
  JsonValue.obj
    [ ("id", JsonValue.num 78)
    , ("topic", JsonValue.str ("Professional Image"))
    , ("question", JsonValue.str ("Which clothing choice aligns best with the guide\x27s example of professional interview attire?"))
    , ("options", JsonValue.obj
      [ ("A", JsonValue.str ("Casual shorts and flip-flops"))
      , ("B", JsonValue.str ("Neat slacks, a dress or suit, and closed-toe shoes"))
      , ("C", JsonValue.str ("Party wear"))
      , ("D", JsonValue.str ("Gym clothes")) ])
    , ("correct_answer", JsonValue.str ("B"))
    , ("explanation", JsonValue.str ("Appropriate, neat, and professional clothing (slacks, dress, suit, closed-toe shoes) is recommended for interviews in the guide.")) ]

def fallback_record_079 : JsonValue :=
  JsonValue.obj
    [ ("id", JsonValue.num 79)
    , ("topic", JsonValue.str ("Handling Tough Questions"))
    , ("question", JsonValue.str ("If asked an unfamiliar technical question, the guide recommends you should:"))
    , ("options", JsonValue.obj
      [ ("A", JsonValue.str ("Make up an answer"))
      , ("B", JsonValue.str ("Ask clarifying questions, think briefly, and outline how you\x27d approach the problem"))
      , ("C", JsonValue.str ("Say you don\x27t know and leave it at that"))
      , ("D", JsonValue.str ("Refuse to answer")) ])
    , ("correct_answer", JsonValue.str ("B"))
    , ("explanation", JsonValue.str ("Clarifying, thinking, and explaining a problem-solving approach shows competence and honesty, per the PDF.")) ]

def fallback_record_080 : JsonValue :=
  JsonValue.obj
    [ ("id", JsonValue.num 80)
    , ("topic", JsonValue.str ("Informational Interviews"))
    , ("question", JsonValue.str ("What is the primary purpose of an informational interview according to the guide?"))
    , ("options", JsonValue.obj
      [ ("A", JsonValue.str ("To get a job offer immediately"))
      , ("B", JsonValue.str ("To learn about day-to-day responsibilities and industry insights while building relationships"))
      , ("C", JsonValue.str ("To request unpaid work"))
      , ("D", JsonValue.str ("To test interview questions")) ])
    , ("correct_answer", JsonValue.str ("B"))
    , ("explanation", JsonValue.str ("Informational interviews are exploratory meetings to gain understanding and connections, not immediate hiring evaluations.")) ]

def fallback_record_081 : JsonValue :=
  JsonValue.obj
    [ ("id", JsonValue.num 81)
    , ("topic", JsonValue.str ("CV Tailoring Exercise (Hard)"))
    , ("question", JsonValue.str ("Given a job requiring \x27project delivery and stakeholder communication\x27, which CV bullet best demonstrates fit?"))
    , ("options", JsonValue.obj
      [ ("A", JsonValue.str ("Handled several projects"))
      , ("B", JsonValue.str ("Led cross-functional project delivery for a product launch, coordinating five stakeholders and delivering on time"))
      , ("C", JsonValue.str ("Worked with stakeholders occasionally"))
      , ("D", JsonValue.str ("Interested in project management")) ])
    , ("correct_answer", JsonValue.str ("B"))
    , ("explanation", JsonValue.str ("This bullet uses measurable detail and explicitly mentions coordination and delivery—directly mapping to the job requirement.")) ]

def fallback_record_082 : JsonValue :=
  JsonValue.obj
    [ ("id", JsonValue.num 82)
    , ("topic", JsonValue.str ("Ethical Considerations"))
    , ("question", JsonValue.str ("If you discover a recruiter has posted inaccurate information about you online, the best course of action is to:"))
    , ("options", JsonValue.obj
      [ ("A", JsonValue.str ("Ignore it"))
      , ("B", JsonValue.str ("Politely request correction and provide accurate documentation if needed"))
      , ("C", JsonValue.str ("Publicly shame the recruiter"))
      , ("D", JsonValue.str ("Retaliate by posting false information about them")) ])
    , ("correct_answer", JsonValue.str ("B"))
    , ("explanation", JsonValue.str ("The guide implies professionalism; resolving inaccuracies calmly and with evidence preserves reputation and relationships.")) ]

def fallback_record_083 : JsonValue :=
  JsonValue.obj
    [ ("id", JsonValue.num 83)
    , ("topic", JsonValue.str ("Advanced Networking"))
    , ("question", JsonValue.str ("Which strategy most effectively uncovers hidden job opportunities per the PDF?"))
    , ("options", JsonValue.obj
      [ ("A", JsonValue.str ("Rely solely on job boards"))
      , ("B", JsonValue.str ("Invest time in building and nurturing relationships with people in your industry"))
      , ("C", JsonValue.str ("Only attend social events without purpose"))
      , ("D", JsonValue.str ("Post resumes randomly in forums")) ])
    , ("correct_answer", JsonValue.str ("B"))
    , ("explanation", JsonValue.str ("The PDF repeatedly emphasizes networking and nurturing relationships as the top approach to finding hidden jobs.")) ]

def fallback_record_084 : JsonValue :=
  JsonValue.obj
    [ ("id", JsonValue.num 84)
    , ("topic", JsonValue.str ("CV Length and Relevance"))
    , ("question", JsonValue.str ("For most professional roles, the guide suggests the optimal CV length is:"))
    , ("options", JsonValue.obj
      [ ("A", JsonValue.str ("10+ pages covering all life events"))
      , ("B", JsonValue.str ("Brief and relevant—concentrate on recent and pertinent achievements (typically 1–2 pages)"))
      , ("C", JsonValue.str ("One line"))
      , ("D", JsonValue.str ("A novel-length autobiography")) ])
    , ("correct_answer", JsonValue.str ("B"))
    , ("explanation", JsonValue.str ("The PDF recommends concise CVs focused on relevant recent accomplishments, avoiding excessive detail.")) ]

def fallback_record_085 : JsonValue :=
  JsonValue.obj
    [ ("id", JsonValue.num 85)
    , ("topic", JsonValue.str ("Presentation Accessibility"))
    , ("question", JsonValue.str ("Which accessibility practice enhances a presentation for diverse audiences?"))
    , ("options", JsonValue.obj
      [ ("A", JsonValue.str ("Use tiny fonts and verbose slides"))
      , ("B", JsonValue.str ("Choose readable fonts, adequate spacing, and clear visual contrast"))
      , ("C", JsonValue.str ("Rely on color alone to convey meaning"))
      , ("D", JsonValue.str ("Include no slide titles")) ])
    , ("correct_answer", JsonValue.str ("B"))
    , ("explanation", JsonValue.str ("Readable fonts, spacing and contrast align with the guide\x27s advice for clear, audience-friendly slides.")) ]

def fallback_record_086 : JsonValue :=
  JsonValue.obj
    [ ("id", JsonValue.num 86)
    , ("topic", JsonValue.str ("Interview Role-Play (Hard)"))
    , ("question", JsonValue.str ("If asked to prioritize tasks with conflicting deadlines, which approach best demonstrates professional judgment?"))
    , ("options", JsonValue.obj
      [ ("A", JsonValue.str ("Do tasks in random order"))
      , ("B", JsonValue.str ("Assess impact and urgency, communicate with stakeholders, and set realistic timelines"))
      , ("C", JsonValue.str ("Ignore stakeholders and work alone"))
      , ("D", JsonValue.str ("Complain about workload")) ])
    , ("correct_answer", JsonValue.str ("B"))
    , ("explanation", JsonValue.str ("The guide highlights communication, prioritization by impact, and stakeholder alignment as markers of professional capability.")) ]

def fallback_record_087 : JsonValue :=
  JsonValue.obj
    [ ("id", JsonValue.num 87)
    , ("topic", JsonValue.str ("Presentation Evaluation"))
    , ("question", JsonValue.str ("After delivering a presentation, which action yields the most improvement according to the PDF?"))
    , ("options", JsonValue.obj
      [ ("A", JsonValue.str ("Never review performance"))
      , ("B", JsonValue.str ("Watch a recording, seek feedback, and iterate on weak areas"))
      , ("C", JsonValue.str ("Assume it was perfect"))
      , ("D", JsonValue.str ("Only change slides without changing delivery")) ])
    , ("correct_answer", JsonValue.str ("B"))
    , ("explanation", JsonValue.str ("Recording your talk and obtaining feedback are recommended steps for continuous improvement.")) ]

def fallback_record_088 : JsonValue :=
  JsonValue.obj
    [ ("id", JsonValue.num 88)
    , ("topic", JsonValue.str ("Interview Negotiation"))
    , ("question", JsonValue.str ("Which timing for discussing salary is recommended in the guide?"))
    , ("options", JsonValue.obj
      [ ("A", JsonValue.str ("Immediately at the start of the first interview"))
      , ("B", JsonValue.str ("After you have demonstrated fit and when an offer or clear next-stage discussion arises"))
      , ("C", JsonValue.str ("Demand it during the greeting"))
      , ("D", JsonValue.str ("Never discuss salary")) ])
    , ("correct_answer", JsonValue.str ("B"))
    , ("explanation", JsonValue.str ("The guide suggests focusing first on fit and value; compensation talks are best after mutual interest is established.")) ]

def fallback_record_089 : JsonValue :=
  JsonValue.obj
    [ ("id", JsonValue.num 89)
    , ("topic", JsonValue.str ("Public Speaking Recovery"))
    , ("question", JsonValue.str ("If you lose your train of thought during a presentation, the guide suggests you should:"))
    , ("options", JsonValue.obj
      [ ("A", JsonValue.str ("Apologize profusely and stop"))
      , ("B", JsonValue.str ("Use a cue phrase, pause, take a breath, and continue from your key point"))
      , ("C", JsonValue.str ("Leave the stage"))
      , ("D", JsonValue.str ("Read a different presenter\x27s notes")) ])
    , ("correct_answer", JsonValue.str ("B"))
    , ("explanation", JsonValue.str ("Pausing and using cues prevents panic and maintains professionalism when recovering from a lapse.")) ]

def fallback_record_090 : JsonValue :=
  JsonValue.obj
    [ ("id", JsonValue.num 90)
    , ("topic", JsonValue.str ("CV Personal Branding"))
    , ("question", JsonValue.str ("Which short statement best functions as a strong \x27About\x27 section on LinkedIn per the guide?"))
    , ("options", JsonValue.obj
      [ ("A", JsonValue.str ("I like many things"))
      , ("B", JsonValue.str ("Product manager with 6 years\x27 experience launching B2B SaaS; I specialize in cross-functional leadership and data-driven roadmaps that increased retention by 18%"))
      , ("C", JsonValue.str ("Looking for work"))
      , ("D", JsonValue.str ("Contact me")) ])
    , ("correct_answer", JsonValue.str ("B"))
    , ("explanation", JsonValue.str ("A concise, first-person summary with role, experience, specialization, and measurable outcomes fits the guide\x27s recommendations.")) ]

def fallback_record_091 : JsonValue :=
  JsonValue.obj
    [ ("id", JsonValue.num 91)
    , ("topic", JsonValue.str ("Advanced CV Bullet Crafting"))
    , ("question", JsonValue.str ("Which CV bullet demonstrates both scope and outcome most effectively?"))
    , ("options", JsonValue.obj
      [ ("A", JsonValue.str ("Worked on marketing campaigns"))
      , ("B", JsonValue.str ("Led a digital campaign across three channels reaching 1M users and increasing lead conversion by 12%"))
      , ("C", JsonValue.str ("Was part of a team"))
      , ("D", JsonValue.str ("Helped with social media")) ])
    , ("correct_answer", JsonValue.str ("B"))
    , ("explanation", JsonValue.str ("This bullet includes scope (three channels, 1M users) and a concrete outcome (12% conversion uplift).")) ]

def fallback_record_092 : JsonValue :=
  JsonValue.obj
    [ ("id", JsonValue.num 92)
    , ("topic", JsonValue.str ("Networking Prioritization"))
    , ("question", JsonValue.str ("Given limited time, which networking activity yields the highest return per the guide?"))
    , ("options", JsonValue.obj
      [ ("A", JsonValue.str ("Mass-emailing strangers"))
      , ("B", JsonValue.str ("Scheduling one meaningful conversation per week with a targeted contact"))
      , ("C", JsonValue.str ("Posting memes daily"))
      , ("D", JsonValue.str ("Attending every possible event without follow-up")) ])
    , ("correct_answer", JsonValue.str ("B"))
    , ("explanation", JsonValue.str ("The guide recommends regular, focused conversations over low-value mass outreach to build real relationships.")) ]

def fallback_record_093 : JsonValue :=
  JsonValue.obj
    [ ("id", JsonValue.num 93)
    , ("topic", JsonValue.str ("Interview Assessment"))
    , ("question", JsonValue.str ("How should you handle a question about a salary gap or employment gap according to the guide?"))
    , ("options", JsonValue.obj
      [ ("A", JsonValue.str ("Lie about being employed"))
      , ("B", JsonValue.str ("Be honest, explain productive activities during the gap and what you learned"))
      , ("C", JsonValue.str ("Refuse to discuss"))
      , ("D", JsonValue.str ("Blame the economy without detail")) ])
    , ("correct_answer", JsonValue.str ("B"))
    , ("explanation", JsonValue.str ("Honesty combined with framing the gap as a time of development or productive activity is recommended.")) ]

def fallback_record_094 : JsonValue :=
  JsonValue.obj
    [ ("id", JsonValue.num 94)
    , ("topic", JsonValue.str ("Presentation Slide Best Practice"))
    , ("question", JsonValue.str ("Which slide practice most aligns with the \x27black slides\x27 tip?"))
    , ("options", JsonValue.obj
      [ ("A", JsonValue.str ("Always show slides with dense text"))
      , ("B", JsonValue.str ("Include occasional blank or black slides to re-focus attention on the speaker"))
      , ("C", JsonValue.str ("Never change slides"))
      , ("D", JsonValue.str ("Use black slides as filler")) ])
    , ("correct_answer", JsonValue.str ("B"))
    , ("explanation", JsonValue.str ("The \x27black slides\x27 tip suggests using blank/black slides strategically to emphasize spoken content and maintain focus.")) ]

def fallback_record_095 : JsonValue :=
  JsonValue.obj
    [ ("id", JsonValue.num 95)
    , ("topic", JsonValue.str ("Interview Preparation Drill (Hard)"))
    , ("question", JsonValue.str ("When preparing examples for behavioral interviews, which approach yields the strongest set of responses?"))
    , ("options", JsonValue.obj
      [ ("A", JsonValue.str ("Memorize unrelated stories"))
      , ("B", JsonValue.str ("Prepare 6–8 STAR examples tailored to common competencies and practice concise delivery"))
      , ("C", JsonValue.str ("Only prepare one example for all questions"))
      , ("D", JsonValue.str ("Rely on improvisation")) ])
    , ("correct_answer", JsonValue.str ("B"))
    , ("explanation", JsonValue.str ("Having multiple STAR examples for key competencies allows adaptable, evidence-based responses during interviews.")) ]

def fallback_record_096 : JsonValue :=
  JsonValue.obj
    [ ("id", JsonValue.num 96)
    , ("topic", JsonValue.str ("Career Mindset"))
    , ("question", JsonValue.str ("The guide urges job seekers to adopt which mindset during their search?"))
    , ("options", JsonValue.obj
      [ ("A", JsonValue.str ("Passive wait-for-opportunity"))
      , ("B", JsonValue.str ("Active consultant approach: understand employer problems and present yourself as the remedy"))
      , ("C", JsonValue.str ("Only focus on salary"))
      , ("D", JsonValue.str ("Avoid learning about industry trends")) ])
    , ("correct_answer", JsonValue.str ("B"))
    , ("explanation", JsonValue.str ("It suggests showing employers you understand their needs and positioning yourself as the solution, not just a candidate.")) ]

def fallback_record_097 : JsonValue :=
  JsonValue.obj
    [ ("id", JsonValue.num 97)
    , ("topic", JsonValue.str ("Public Speaking Style"))
    , ("question", JsonValue.str ("Which stylistic recommendation improves clarity and impact in presentations?"))
    , ("options", JsonValue.obj
      [ ("A", JsonValue.str ("Use technical jargon without explanation"))
      , ("B", JsonValue.str ("Use clear structure, plain language and rhetorical techniques to emphasize points"))
      , ("C", JsonValue.str ("Speak in monotone"))
      , ("D", JsonValue.str ("Avoid storytelling")) ])
    , ("correct_answer", JsonValue.str ("B"))
    , ("explanation", JsonValue.str ("The guide encourages stylistic choices like clear structure and rhetorical techniques to make arguments persuasive and accessible.")) ]

def fallback_record_098 : JsonValue :=
  JsonValue.obj
    [ ("id", JsonValue.num 98)
    , ("topic", JsonValue.str ("Advanced Problem Solving"))
    , ("question", JsonValue.str ("In the IDEAL framework\x27s \x27Explore possible solutions\x27 step, which action is most consistent with best practice?"))
    , ("options", JsonValue.obj
      [ ("A", JsonValue.str ("Choose the first idea that comes to mind"))
      , ("B", JsonValue.str ("Generate multiple alternatives, assess risks and benefits, and select the most viable"))
      , ("C", JsonValue.str ("Avoid brainstorming"))
      , ("D", JsonValue.str ("Pick the cheapest solution regardless of fit")) ])
    , ("correct_answer", JsonValue.str ("B"))
    , ("explanation", JsonValue.str ("The \x27Explore\x27 phase involves generating and evaluating multiple options to find a robust solution.")) ]

def fallback_record_099 : JsonValue :=
  JsonValue.obj
    [ ("id", JsonValue.num 99)
    , ("topic", JsonValue.str ("CV Red Flags (Hard)"))
    , ("question", JsonValue.str ("Which CV entry is most likely to trigger further verification by employers?"))
    , ("options", JsonValue.obj
      [ ("A", JsonValue.str ("Detailed accomplishments with measurable outcomes"))
      , ("B", JsonValue.str ("An unverifiable claim of a degree from a non-existent institution"))
      , ("C", JsonValue.str ("A short, accurate job description"))
      , ("D", JsonValue.str ("Clear dates of employment")) ])
    , ("correct_answer", JsonValue.str ("B"))
    , ("explanation", JsonValue.str ("False or unverifiable academic claims are high-risk and prompt checks; the guide warns against falsification.")) ]

def fallback_record_100 : JsonValue :=
  JsonValue.obj
    [ ("id", JsonValue.num 100)
    , ("topic", JsonValue.str ("Presentation Audience Analysis"))
    , ("question", JsonValue.str ("Which pre-presentation action best helps tailor content to audience needs?"))
    , ("options", JsonValue.obj
      [ ("A", JsonValue.str ("Assume everyone knows the topic"))
      , ("B", JsonValue.str ("Ask about audience background and expectations beforehand"))
      , ("C", JsonValue.str ("Prepare generic material only"))
      , ("D", JsonValue.str ("Ignore agenda constraints")) ])
    , ("correct_answer", JsonValue.str ("B"))
    , ("explanation", JsonValue.str ("Knowing the audience helps you select appropriate depth and examples; the guide recommends pre-event audience analysis.")) ]

def fallback_record_101 : JsonValue :=
  JsonValue.obj
    [ ("id", JsonValue.num 101)
    , ("topic", JsonValue.str ("Interview Strategy (Hard)"))
    , ("question", JsonValue.str ("You are interviewing for a role that emphasizes adaptability. Which example best demonstrates adaptability?"))
    , ("options", JsonValue.obj
      [ ("A", JsonValue.str ("I never change my approach"))
      , ("B", JsonValue.str ("Led a project pivot when market signals changed, re-prioritised tasks and delivered features that matched new customer needs"))
      , ("C", JsonValue.str ("I prefer static environments"))
      , ("D", JsonValue.str ("I avoid ambiguous tasks")) ])
    , ("correct_answer", JsonValue.str ("B"))
    , ("explanation", JsonValue.str ("An example showing pivoting, re-prioritization and successful delivery aligns well with adaptability.")) ]

def fallback_record_102 : JsonValue :=
  JsonValue.obj
    [ ("id", JsonValue.num 102)
    , ("topic", JsonValue.str ("CV Proofreading"))
    , ("question", JsonValue.str ("Which step most reduces the chance of spelling/grammar errors on your CV?"))
    , ("options", JsonValue.obj
      [ ("A", JsonValue.str ("Rely only on spellcheck"))
      , ("B", JsonValue.str ("Use spellcheck and have at least one other person review the CV"))
      , ("C", JsonValue.str ("Ignore errors; they are unimportant"))
      , ("D", JsonValue.str ("Use unconventional fonts to hide errors")) ])
    , ("correct_answer", JsonValue.str ("B"))
    , ("explanation", JsonValue.str ("The guide recommends both automated tools and human proofreading to catch errors and improve clarity.")) ]

def fallback_record_103 : JsonValue :=
  JsonValue.obj
    [ ("id", JsonValue.num 103)
    , ("topic", JsonValue.str ("Advanced Networking Tactic"))
    , ("question", JsonValue.str ("How should you approach a senior executive when you have no prior connection?"))
    , ("options", JsonValue.obj
      [ ("A", JsonValue.str ("Send a long unsolicited resume"))
      , ("B", JsonValue.str ("Research their work, craft a concise message showing mutual value, and request a short exploratory conversation"))
      , ("C", JsonValue.str ("Demand a job immediately"))
      , ("D", JsonValue.str ("Ignore personalization")) ])
    , ("correct_answer", JsonValue.str ("B"))
    , ("explanation", JsonValue.str ("The guide advises research, personalization, and a consultative ask to build rapport with senior contacts.")) ]

def fallback_record_104 : JsonValue :=
  JsonValue.obj
    [ ("id", JsonValue.num 104)
    , ("topic", JsonValue.str ("Presentation Rehearsal (Hard)"))
    , ("question", JsonValue.str ("Which rehearsal method is most effective for improving timing and pausing?"))
    , ("options", JsonValue.obj
      [ ("A", JsonValue.str ("Speak only in your head"))
      , ("B", JsonValue.str ("Record full runs and time each section, practicing strategic pauses and transitions"))
      , ("C", JsonValue.str ("Read the script silently"))
      , ("D", JsonValue.str ("Avoid timing practice to stay natural")) ])
    , ("correct_answer", JsonValue.str ("B"))
    , ("explanation", JsonValue.str ("Recording and timing helps refine pacing and purposeful pausing for emphasis as advised in the guide.")) ]

def fallback_record_105 : JsonValue :=
  JsonValue.obj
    [ ("id", JsonValue.num 105)
    , ("topic", JsonValue.str ("Interview Assessment (Hard)"))
    , ("question", JsonValue.str ("An interviewer asks for evidence of leadership under resource constraints. Which answer is strongest?"))
    , ("options", JsonValue.obj
      [ ("A", JsonValue.str ("I would handle it if it happens"))
      , ("B", JsonValue.str ("During a hiring freeze, I reallocated existing staff, automated reporting to cut manual hours by 25%, and maintained project delivery"))
      , ("C", JsonValue.str ("I avoid leading in constrained situations"))
      , ("D", JsonValue.str ("I wait for resources to appear")) ])
    , ("correct_answer", JsonValue.str ("B"))
    , ("explanation", JsonValue.str ("Concrete actions and measurable outcomes under constraints demonstrate credible leadership experience.")) ]

def fallback_record_106 : JsonValue :=
  JsonValue.obj
    [ ("id", JsonValue.num 106)
    , ("topic", JsonValue.str ("CV Keyword Strategy"))
    , ("question", JsonValue.str ("To improve ATS (Applicant Tracking System) match rates, what should you do?"))
    , ("options", JsonValue.obj
      [ ("A", JsonValue.str ("Use images instead of text"))
      , ("B", JsonValue.str ("Mirror key words and phrases from the job description in your CV where they truthfully apply"))
      , ("C", JsonValue.str ("Hide keywords in white text"))
      , ("D", JsonValue.str ("Use complex PDF layouts that ATS cannot read")) ])
    , ("correct_answer", JsonValue.str ("B"))
    , ("explanation", JsonValue.str ("The guide suggests aligning language with job descriptions (truthfully) to improve discoverability by ATS.")) ]

def fallback_record_107 : JsonValue :=
  JsonValue.obj
    [ ("id", JsonValue.num 107)
    , ("topic", JsonValue.str ("Presentation Q&A Handling"))
    , ("question", JsonValue.str ("When faced with a hostile question during Q&A, the best tactic is to:"))
    , ("options", JsonValue.obj
      [ ("A", JsonValue.str ("Argue aggressively"))
      , ("B", JsonValue.str ("Stay calm, acknowledge the concern, and respond concisely with facts or offer to discuss offline"))
      , ("C", JsonValue.str ("Ignore the question"))
      , ("D", JsonValue.str ("Walk out")) ])
    , ("correct_answer", JsonValue.str ("B"))
    , ("explanation", JsonValue.str ("Remaining composed and constructive preserves credibility and often defuses hostility as advised in the guide.")) ]

def fallback_record_108 : JsonValue :=
  JsonValue.obj
    [ ("id", JsonValue.num 108)
    , ("topic", JsonValue.str ("Career Planning"))
    , ("question", JsonValue.str ("Which activity is LEAST helpful when planning a long-term career path?"))
    , ("options", JsonValue.obj
      [ ("A", JsonValue.str ("Clarifying values and goals"))
      , ("B", JsonValue.str ("Tracking industry trends and skill demands"))
      , ("C", JsonValue.str ("Building a plan to acquire needed skills"))
      , ("D", JsonValue.str ("Randomly changing jobs without reflection")) ])
    , ("correct_answer", JsonValue.str ("D"))
    , ("explanation", JsonValue.str ("Strategic planning, not haphazard job changes, aligns with the document\x27s career decision advice.")) ]

def fallback_record_109 : JsonValue :=
  JsonValue.obj
    [ ("id", JsonValue.num 109)
    , ("topic", JsonValue.str ("Negotiation Preparation"))
    , ("question", JsonValue.str ("Before salary negotiation, the guide suggests you should:"))
    , ("options", JsonValue.obj
      [ ("A", JsonValue.str ("Know your market value and prepare clear examples of your impact"))
      , ("B", JsonValue.str ("Demand double without justification"))
      , ("C", JsonValue.str ("Avoid discussing accomplishments"))
      , ("D", JsonValue.str ("Accept the first offer immediately")) ])
    , ("correct_answer", JsonValue.str ("A"))
    , ("explanation", JsonValue.str ("Knowing market rates and demonstrating your value with examples positions you for stronger negotiation outcomes.")) ]

def fallback_record_110 : JsonValue :=
  JsonValue.obj
    [ ("id", JsonValue.num 110)
    , ("topic", JsonValue.str ("Presentation Accessibility (Hard)"))
    , ("question", JsonValue.str ("If your audience includes non-native speakers, which adjustment is most appropriate?"))
    , ("options", JsonValue.obj
      [ ("A", JsonValue.str ("Use dense idiomatic language"))
      , ("B", JsonValue.str ("Use clear, simple language and allow slightly slower pacing"))
      , ("C", JsonValue.str ("Speed up to fit more content"))
      , ("D", JsonValue.str ("Avoid summarizing key points")) ])
    , ("correct_answer", JsonValue.str ("B"))
    , ("explanation", JsonValue.str ("Simpler language and slightly slower delivery improve comprehension for audiences with varied language proficiency.")) ]

def fallback_record_111 : JsonValue :=
  JsonValue.obj
    [ ("id", JsonValue.num 111)
    , ("topic", JsonValue.str ("Job Search Diversification"))
    , ("question", JsonValue.str ("Which combination best reflects a diversified job search strategy recommended by the guide?"))
    , ("options", JsonValue.obj
      [ ("A", JsonValue.str ("Apply online only"))
      , ("B", JsonValue.str ("Network, ask for referrals, target companies directly, use recruiters and apply online selectively"))
      , ("C", JsonValue.str ("Only attend job fairs"))
      , ("D", JsonValue.str ("Post your CV on one board and wait")) ])
    , ("correct_answer", JsonValue.str ("B"))
    , ("explanation", JsonValue.str ("The guide recommends multiple channels—networking, referrals, targeted outreach, agency recruiters and selective online applications.")) ]

def fallback_record_112 : JsonValue :=
  JsonValue.obj
    [ ("id", JsonValue.num 112)
    , ("topic", JsonValue.str ("Interview Body Language"))
    , ("question", JsonValue.str ("Which body-language behavior increases perceived confidence?"))
    , ("options", JsonValue.obj
      [ ("A", JsonValue.str ("Slouched posture"))
      , ("B", JsonValue.str ("Crossed arms and minimal eye contact"))
      , ("C", JsonValue.str ("Open posture, upright sitting, and measured gestures"))
      , ("D", JsonValue.str ("Avoiding hand movement entirely")) ])
    , ("correct_answer", JsonValue.str ("C"))
    , ("explanation", JsonValue.str ("Open posture, good eye contact and controlled gestures communicate confidence, as the guide outlines.")) ]

def fallback_record_113 : JsonValue :=
  JsonValue.obj
    [ ("id", JsonValue.num 113)
    , ("topic", JsonValue.str ("Professional Development"))
    , ("question", JsonValue.str ("Which action best demonstrates commitment to continuous professional development?"))
    , ("options", JsonValue.obj
      [ ("A", JsonValue.str ("Never learning new tools"))
      , ("B", JsonValue.str ("Attending relevant courses/conferences and seeking certifications"))
      , ("C", JsonValue.str ("Relying only on past education"))
      , ("D", JsonValue.str ("Avoiding feedback")) ])
    , ("correct_answer", JsonValue.str ("B"))
    , ("explanation", JsonValue.str ("The guide encourages ongoing learning through training, conferences and certifications to stay competitive.")) ]

def fallback_record_114 : JsonValue :=
  JsonValue.obj
    [ ("id", JsonValue.num 114)
    , ("topic", JsonValue.str ("Presentation Technology"))
    , ("question", JsonValue.str ("Which technology practice can undermine a virtual presentation?"))
    , ("options", JsonValue.obj
      [ ("A", JsonValue.str ("Testing audio/video in advance"))
      , ("B", JsonValue.str ("Using poor lighting and ignoring microphone checks"))
      , ("C", JsonValue.str ("Sharing slides in an accessible format"))
      , ("D", JsonValue.str ("Muting background noise")) ])
    , ("correct_answer", JsonValue.str ("B"))
    , ("explanation", JsonValue.str ("Poor AV setup distracts and reduces professionalism; pre-checks are recommended.")) ]

def fallback_record_115 : JsonValue :=
  JsonValue.obj
    [ ("id", JsonValue.num 115)
    , ("topic", JsonValue.str ("Career Story (Hard)"))
    , ("question", JsonValue.str ("Which approach frames your career narrative most persuasively for an interview?"))
    , ("options", JsonValue.obj
      [ ("A", JsonValue.str ("Listing jobs with no context"))
      , ("B", JsonValue.str ("Telling a concise story linking experiences, key accomplishments, skills developed and future goals aligned to the role"))
      , ("C", JsonValue.str ("Talking only about personal hobbies"))
      , ("D", JsonValue.str ("Reciting your resume verbatim")) ])
    , ("correct_answer", JsonValue.str ("B"))
    , ("explanation", JsonValue.str ("A coherent narrative that connects past achievements with future goals shows purposeful career direction as the PDF advises.")) ]

def fallback_record_116 : JsonValue :=
  JsonValue.obj
    [ ("id", JsonValue.num 116)
    , ("topic", JsonValue.str ("Presentation Feedback"))
    , ("question", JsonValue.str ("Which type of feedback is most valuable for improving presentation effectiveness?"))
    , ("options", JsonValue.obj
      [ ("A", JsonValue.str ("Generic praise with no specifics"))
      , ("B", JsonValue.str ("Actionable feedback on structure, delivery, and audience engagement with examples"))
      , ("C", JsonValue.str ("Harsh criticism without guidance"))
      , ("D", JsonValue.str ("No feedback at all")) ])
    , ("correct_answer", JsonValue.str ("B"))
    , ("explanation", JsonValue.str ("Actionable, specific feedback helps you iterate and improve; the guide supports structured review.")) ]

def fallback_record_117 : JsonValue :=
  JsonValue.obj
    [ ("id", JsonValue.num 117)
    , ("topic", JsonValue.str ("Interview Preparation Checklist"))
    , ("question", JsonValue.str ("Which item is LEAST relevant on a pre-interview checklist?"))
    , ("options", JsonValue.obj
      [ ("A", JsonValue.str ("Research company and role"))
      , ("B", JsonValue.str ("Prepare STAR examples"))
      , ("C", JsonValue.str ("Plan travel and arrive early"))
      , ("D", JsonValue.str ("Memorize exact sentences to recite word-for-word")) ])
    , ("correct_answer", JsonValue.str ("D"))
    , ("explanation", JsonValue.str ("Memorizing verbatim can sound robotic and fail if you forget; structured practice and prompts are preferred.")) ]

def fallback_record_118 : JsonValue :=
  JsonValue.obj
    [ ("id", JsonValue.num 118)
    , ("topic", JsonValue.str ("CV Digital Presence"))
    , ("question", JsonValue.str ("Which online practice strengthens professional credibility per the guide?"))
    , ("options", JsonValue.obj
      [ ("A", JsonValue.str ("Leaving LinkedIn incomplete"))
      , ("B", JsonValue.str ("Maintaining a polished LinkedIn with achievements, endorsements, and an updated profile"))
      , ("C", JsonValue.str ("Posting personal controversies"))
      , ("D", JsonValue.str ("Deleting all online presence")) ])
    , ("correct_answer", JsonValue.str ("B"))
    , ("explanation", JsonValue.str ("A compelling LinkedIn profile supports personal branding and discoverability as recommended in the PDF.")) ]

def fallback_record_119 : JsonValue :=
  JsonValue.obj
    [ ("id", JsonValue.num 119)
    , ("topic", JsonValue.str ("Presentation Persuasion"))
    , ("question", JsonValue.str ("Which rhetorical technique increases persuasive power in presentations?"))
    , ("options", JsonValue.obj
      [ ("A", JsonValue.str ("Overloading slides with data"))
      , ("B", JsonValue.str ("Using clear structure, stories and evidence to support claims"))
      , ("C", JsonValue.str ("Using confusing analogies"))
      , ("D", JsonValue.str ("Delivering without examples")) ])
    , ("correct_answer", JsonValue.str ("B"))
    , ("explanation", JsonValue.str ("Stories and evidence framed within a clear structure make arguments memorable and persuasive, per the guide.")) ]

def fallback_record_120 : JsonValue :=
  JsonValue.obj
    [ ("id", JsonValue.num 120)
    , ("topic", JsonValue.str ("Long-term Career Planning (Hard)"))
    , ("question", JsonValue.str ("When planning a career pivot, which sequence aligns with the guide\x27s advice?"))
    , ("options", JsonValue.obj
      [ ("A", JsonValue.str ("Apply randomly until hired"))
      , ("B", JsonValue.str ("Assess transferable skills, research target industry, acquire key skills, network into roles and present your story"))
      , ("C", JsonValue.str ("Quit immediately and hope for the best"))
      , ("D", JsonValue.str ("Rely solely on online applications")) ])
    , ("correct_answer", JsonValue.str ("B"))
    , ("explanation", JsonValue.str ("A structured pivot involves skill mapping, targeted research, learning and relationship-building—advice echoed throughout the PDF.")) ]

def fallback_record_121 : JsonValue :=
  JsonValue.obj
    [ ("id", JsonValue.num 121)
    , ("topic", JsonValue.str ("Interview Reflection"))
    , ("question", JsonValue.str ("After a difficult interview, what reflection practice best prepares you for improvement?"))
    , ("options", JsonValue.obj
      [ ("A", JsonValue.str ("Forget about it and move on"))
      , ("B", JsonValue.str ("List questions you struggled with, identify gaps in examples or knowledge, and create a plan to address them"))
      , ("C", JsonValue.str ("Blame the interviewer"))
      , ("D", JsonValue.str ("Panic and avoid future interviews")) ])
    , ("correct_answer", JsonValue.str ("B"))
    , ("explanation", JsonValue.str ("Reflecting on weaknesses and planning remedial actions aligns with the guide\x27s emphasis on practice and preparation.")) ]

def fallback_record_122 : JsonValue :=
  JsonValue.obj
    [ ("id", JsonValue.num 122)
    , ("topic", JsonValue.str ("Career Opportunity Sourcing"))
    , ("question", JsonValue.str ("Which approach uncovers leadership-level roles according to the guide?"))
    , ("options", JsonValue.obj
      [ ("A", JsonValue.str ("Only apply to junior roles"))
      , ("B", JsonValue.str ("Engage executive recruiters, build relationships with decision-makers, and demonstrate strategic impact"))
      , ("C", JsonValue.str ("Use generic job alerts"))
      , ("D", JsonValue.str ("Focus solely on entry-level networking")) ])
    , ("correct_answer", JsonValue.str ("B"))
    , ("explanation", JsonValue.str ("For senior roles, executive recruiters and direct engagement with decision-makers are key strategies discussed in the PDF.")) ]

def fallback_record_123 : JsonValue :=
  JsonValue.obj
    [ ("id", JsonValue.num 123)
    , ("topic", JsonValue.str ("Public Speaking Confidence"))
    , ("question", JsonValue.str ("Which mental technique helps reduce presentation anxiety mentioned in the guide?"))
    , ("options", JsonValue.obj
      [ ("A", JsonValue.str ("Visualize a hostile audience"))
      , ("B", JsonValue.str ("Use affirmations and visualization of a positive audience reaction"))
      , ("C", JsonValue.str ("Avoid preparation to keep spontaneity"))
      , ("D", JsonValue.str ("Rely on caffeine")) ])
    , ("correct_answer", JsonValue.str ("B"))
    , ("explanation", JsonValue.str ("Visualization and positive affirmations are recommended to mentally prepare and reduce nerves before speaking.")) ]

def fallback_record_124 : JsonValue :=
  JsonValue.obj
    [ ("id", JsonValue.num 124)
    , ("topic", JsonValue.str ("Effective Thank-You Notes"))
    , ("question", JsonValue.str ("What should a post-interview thank-you email ideally contain?"))
    , ("options", JsonValue.obj
      [ ("A", JsonValue.str ("A generic \x27thanks\x27 with no specifics"))
      , ("B", JsonValue.str ("A brief appreciation, one or two points reinforcing your fit and any follow-up information promised"))
      , ("C", JsonValue.str ("A demand for feedback"))
      , ("D", JsonValue.str ("A copy of your CV attached again")) ])
    , ("correct_answer", JsonValue.str ("B"))
    , ("explanation", JsonValue.str ("The guide advises personalized thank-you notes that reinforce fit and provide any requested follow-up details.")) ]

def fallback_record_125 : JsonValue :=
  JsonValue.obj
    [ ("id", JsonValue.num 125)
    , ("topic", JsonValue.str ("Mastery Synthesis (Hard)"))
    , ("question", JsonValue.str ("Which combined strategy best positions a graduate to outperform peers in a competitive job market?"))
    , ("options", JsonValue.obj
      [ ("A", JsonValue.str ("Rely on a high GPA alone"))
      , ("B", JsonValue.str ("Develop transferable soft skills, craft measurable achievements on the CV, proactively network/referrals, and practice interview/presentation competencies"))
      , ("C", JsonValue.str ("Only post resumes on many boards"))
      , ("D", JsonValue.str ("Wait passively for recruiters to find you")) ])
    , ("correct_answer", JsonValue.str ("B"))
    , ("explanation", JsonValue.str ("The PDF\x27s central thesis: combine soft-skill development, clear evidence of impact, proactive networking, and practiced interviewing/presentation to stand out.")) ]

/-- The inner question list of the fallback literal, in source order. -/
def fallback_question_records : List JsonValue :=
  [ fallback_record_001, fallback_record_002, fallback_record_003, fallback_record_004, fallback_record_005
  , fallback_record_006, fallback_record_007, fallback_record_008, fallback_record_009, fallback_record_010
  , fallback_record_011, fallback_record_012, fallback_record_013, fallback_record_014, fallback_record_015
  , fallback_record_016, fallback_record_017, fallback_record_018, fallback_record_019, fallback_record_020
  , fallback_record_021, fallback_record_022, fallback_record_023, fallback_record_024, fallback_record_025
  , fallback_record_026, fallback_record_027, fallback_record_028, fallback_record_029, fallback_record_030
  , fallback_record_031, fallback_record_032, fallback_record_033, fallback_record_034, fallback_record_035
  , fallback_record_036, fallback_record_037, fallback_record_038, fallback_record_039, fallback_record_040
  , fallback_record_041, fallback_record_042, fallback_record_043, fallback_record_044, fallback_record_045
  , fallback_record_046, fallback_record_047, fallback_record_048, fallback_record_049, fallback_record_050
  , fallback_record_051, fallback_record_052, fallback_record_053, fallback_record_054, fallback_record_055
  , fallback_record_056, fallback_record_057, fallback_record_058, fallback_record_059, fallback_record_060
  , fallback_record_061, fallback_record_062, fallback_record_063, fallback_record_064, fallback_record_065
  , fallback_record_066, fallback_record_067, fallback_record_068, fallback_record_069, fallback_record_070
  , fallback_record_071, fallback_record_072, fallback_record_073, fallback_record_074, fallback_record_075
  , fallback_record_076, fallback_record_077, fallback_record_078, fallback_record_079, fallback_record_080
  , fallback_record_081, fallback_record_082, fallback_record_083, fallback_record_084, fallback_record_085
  , fallback_record_086, fallback_record_087, fallback_record_088, fallback_record_089, fallback_record_090
  , fallback_record_091, fallback_record_092, fallback_record_093, fallback_record_094, fallback_record_095
  , fallback_record_096, fallback_record_097, fallback_record_098, fallback_record_099, fallback_record_100
  , fallback_record_101, fallback_record_102, fallback_record_103, fallback_record_104, fallback_record_105
  , fallback_record_106, fallback_record_107, fallback_record_108, fallback_record_109, fallback_record_110
  , fallback_record_111, fallback_record_112, fallback_record_113, fallback_record_114, fallback_record_115
  , fallback_record_116, fallback_record_117, fallback_record_118, fallback_record_119, fallback_record_120
  , fallback_record_121, fallback_record_122, fallback_record_123, fallback_record_124, fallback_record_125
  ]

/-- Embeds `get_fallback_exam_questions` (src lines 108-1740): the function
returns a ONE-element list whose sole element is the wrapper object holding
the key "questions" and the 125 records — the JSON file content was pasted
into the `return` literal with its outer structure left in place. -/
def get_fallback_exam_questions : List JsonValue :=
  [JsonValue.obj [("questions", JsonValue.arr fallback_question_records)]]

/-!
## Byte decoding and the two loaders

`parse_uploaded_json` (src lines 1772-1804) works on raw uploaded bytes:
it decodes as UTF-8, falls back to latin-1 on a `UnicodeDecodeError`, and
hands the text to `json.loads`.  Bytes are embedded as `List Nat` (each
element < 256); `json.loads` itself is abstracted as a parameter
`loads : String → Option JsonValue` (a raised `JSONDecodeError` is `none`).
-/

/-- A UTF-8 continuation byte (`10xxxxxx`). -/
def isContinuation (b : Nat) : Bool := 0x80 ≤ b && b < 0xC0

/-- Strict UTF-8 decoding to code points, as performed by Python's
`bytes.decode("utf-8")`: rejects stray continuation bytes, overlong forms,
surrogate code points and values above `0x10FFFF`. -/
def utf8_decode_codepoints : List Nat → Option (List Nat)
  | [] => some []
  | b :: bs =>
    if b < 0x80 then
      (utf8_decode_codepoints bs).map (fun cs => b :: cs)
    else if b < 0xC2 then none
    else if b < 0xE0 then
      match bs with
      | b1 :: bs' =>
        if isContinuation b1 then
          (utf8_decode_codepoints bs').map
            (fun cs => ((b - 0xC0) * 64 + (b1 - 0x80)) :: cs)
        else none
      | [] => none
    else if b < 0xF0 then
      match bs with
      | b1 :: b2 :: bs' =>
        if isContinuation b1 && isContinuation b2 then
          let cp := (b - 0xE0) * 4096 + (b1 - 0x80) * 64 + (b2 - 0x80)
          if cp < 0x800 then none
          else if 0xD800 ≤ cp && cp < 0xE000 then none
          else (utf8_decode_codepoints bs').map (fun cs => cp :: cs)
        else none
      | _ => none
    else if b < 0xF5 then
      match bs with
      | b1 :: b2 :: b3 :: bs' =>
        if isContinuation b1 && isContinuation b2 && isContinuation b3 then
          let cp := (b - 0xF0) * 262144 + (b1 - 0x80) * 4096 +
            (b2 - 0x80) * 64 + (b3 - 0x80)
          if cp < 0x10000 then none
          else if 0x10FFFF < cp then none
          else (utf8_decode_codepoints bs').map (fun cs => cp :: cs)
        else none
      | _ => none
    else none

/-- Python `content.decode("utf-8")`: `none` models `UnicodeDecodeError`. -/
def utf8_decode (bs : List Nat) : Option String :=
  (utf8_decode_codepoints bs).map (fun cs => String.mk (cs.map Char.ofNat))

/-- Python `content.decode("latin-1")`: total — every byte maps to the
code point of the same value. -/
def latin1_decode (bs : List Nat) : String :=
  String.mk (bs.map Char.ofNat)

/-- Embeds `parse_uploaded_json` (src lines 1772-1804): decode the bytes as
UTF-8, falling back to latin-1 exactly when UTF-8 raises; parse with
`json.loads` (the `loads` parameter; a parse error is `none`); extract the
question list; return it only if non-empty (Python `if questions:`), else
`None`.  Every failure path returns `None` — the uploaded-bytes loader
never returns the fallback set and never propagates an exception. -/
def parse_uploaded_json (loads : String → Option JsonValue)
    (content : List Nat) : Option (List JsonValue) :=
  let decoded : Option JsonValue :=
    match utf8_decode content with
    | some text => loads text
    | none => loads (latin1_decode content)
  match decoded with
  | some data =>
    match extract_questions_from_data data with
    | some questions => if questions.isEmpty then none else some questions
    | none => none
  | none => none

/-- Embeds `load_questions_from_json` (src lines 48-66): the local file
`programming_questions.json` is abstracted as `localData : Option JsonValue`
(`none` when the file is missing or unreadable/unparseable — the
`except` clause at line 64 also lands on the fallback).  A successful
extraction of a non-empty list is returned; every other outcome yields the
built-in fallback set. -/
def load_questions_from_json (localData : Option JsonValue) :
    List JsonValue :=
  match localData with
  | some data =>
    match extract_questions_from_data data with
    | some questions =>
        if questions.isEmpty then get_fallback_exam_questions else questions
    | none => get_fallback_exam_questions
  | none => get_fallback_exam_questions

/-!
## The exam state machine

`main` (src lines 1817-2168) drives the exam through `st.session_state`
keys; the keys snapshotted by `save_session_state` form the state record.
Each UI handler becomes an effect function, and `Step` records exactly the
conditions under which Streamlit renders the corresponding button (a
button that is not rendered cannot fire).
-/

/-- The `st.session_state` keys the exam logic reads and writes (the keys
snapshotted by `save_session_state`, minus the timestamp). -/
structure ExamState : Type where
  questions : List JsonValue
  current_question : Nat
  score : Nat
  answered : Bool
  user_answers : List (Option String)
  exam_completed : Bool
  topics : List (String × Nat)
  questions_loaded : Bool
  last_uploaded_file_name : Option String

/-- Embeds `analyze_exam_topics` (src lines 1742-1748): count questions per
`q.get('topic', 'General')`, preserving first-appearance order as a Python
dict does.  Topic labels are strings in every question set the application
ships or accepts; a non-string label (which Python would use as a dict key
unchanged) is collapsed to "General" here, an edge no claim touches. -/
def topicLabel (q : JsonValue) : String :=
  match q with
  | .obj fields =>
    match lookupKey fields "topic" with
    | some (.str t) => t
    | _ => "General"
  | _ => "General"

/-- One `topics[topic] = topics.get(topic, 0) + 1` update. -/
def bumpTopic : List (String × Nat) → String → List (String × Nat)
  | [], t => [(t, 1)]
  | (k, n) :: rest, t =>
      if k = t then (k, n + 1) :: rest else (k, n) :: bumpTopic rest t

/-- The `for q in questions` loop of `analyze_exam_topics`. -/
def analyze_exam_topics (questions : List JsonValue) :
    List (String × Nat) :=
  questions.foldl (fun topics q => bumpTopic topics (topicLabel q)) []

/-- Embeds `initialize_exam_state` (src lines 1750-1770) on its reset path
(`restore_progress=False`, the only path the claims exercise): store the
question list and wipe all progress fields.  `last_uploaded_file_name` is
not touched. -/
def initialize_exam_state (s : ExamState) (questions : List JsonValue) :
    ExamState :=
  { s with questions := questions
         , current_question := 0
         , score := 0
         , answered := false
         , user_answers := List.replicate questions.length none
         , exam_completed := false
         , topics := analyze_exam_topics questions
         , questions_loaded := true }

/-- The blank `st.session_state` before any key is set (the `.get`
defaults used by `save_session_state`). -/
def blankSession : ExamState :=
  { questions := []
  , current_question := 0
  , score := 0
  , answered := false
  , user_answers := []
  , exam_completed := false
  , topics := []
  , questions_loaded := false
  , last_uploaded_file_name := none }

/-- A fresh initialization over a given question list (the
`initialize_exam_state()` call in `main`, src line 1836, with the loaded
questions). -/
def freshState (qs : List JsonValue) : ExamState :=
  initialize_exam_state blankSession qs

/-- Python `st.session_state.questions[st.session_state.current_question]`. -/
def currentQuestion (s : ExamState) : Option JsonValue :=
  s.questions.get? s.current_question

/-- Python `list(current_q['options'].keys())` (src line 2042): the radio
labels offered to the user.  A missing or non-dict `options` raises in
Python before any answer can be submitted; modelled as no labels. -/
def optionKeys (q : JsonValue) : List String :=
  match q with
  | .obj fields =>
    match lookupKey fields "options" with
    | some (.obj opts) => opts.map (fun p => p.1)
    | _ => []
  | _ => []

/-- Python `user_answer == current_q['correct_answer']` (src line 2062):
string equality; comparing a string against a non-string value is `False`
in Python.  (A question without the key would raise, which no validated
question does.) -/
def answerIsCorrect (q : JsonValue) (ans : String) : Bool :=
  match q with
  | .obj fields =>
    match lookupKey fields "correct_answer" with
    | some (.str c) => ans = c
    | _ => false
  | _ => false

/-- The Submit Answer handler (src lines 2057-2067): mark answered, record
the label at the current index, and increment the score exactly when the
label equals the current question's correct answer. -/
def applySubmit (s : ExamState) (label : String) : ExamState :=
  { s with answered := true
         , user_answers := s.user_answers.set s.current_question (some label)
         , score :=
             match currentQuestion s with
             | some q => if answerIsCorrect q label then s.score + 1 else s.score
             | none => s.score }

/-- The Next Question handler (src lines 2113-2117). -/
def applyNext (s : ExamState) : ExamState :=
  { s with current_question := s.current_question + 1, answered := false }

/-- The Previous Question handler (src lines 2104-2110): decrement the
index and set `answered` to `False` unconditionally. -/
def applyPrevious (s : ExamState) : ExamState :=
  { s with current_question := s.current_question - 1, answered := false }

/-- The Try Again handler (src lines 2125-2129): clear `answered` only. -/
def applyTryAgain (s : ExamState) : ExamState :=
  { s with answered := false }

/-- The Finish Exam handler (src lines 2119-2122). -/
def applyFinish (s : ExamState) : ExamState :=
  { s with exam_completed := true }

/-- The Shuffle Questions handler (src lines 2014-2020): install the
permuted list, reset the index and `answered`; `user_answers`, `score`,
`exam_completed` and `topics` are left as they are. -/
def applyShuffle (s : ExamState) (shuffled : List JsonValue) : ExamState :=
  { s with questions := shuffled
         , current_question := 0
         , answered := false }

/-- The upload auto-load handler (src lines 1877-1896): remember the file
name; if the new list has the same length as the current one, swap the
questions in place and keep all progress, otherwise reinitialize. -/
def applyUpload (s : ExamState) (qs : List JsonValue) (name : String) :
    ExamState :=
  let s1 := { s with last_uploaded_file_name := some name }
  if s.questions.length = qs.length then { s1 with questions := qs }
  else initialize_exam_state s1 qs

/-- The user interactions that mutate the exam state. -/
inductive Action : Type where
  | submit (label : String) : Action
  | next : Action
  | previous : Action
  | tryAgain : Action
  | finish : Action
  | shuffle (shuffled : List JsonValue) : Action
  | reset : Action
  | upload (qs : List JsonValue) (name : String) : Action

/-- One UI-driven transition.  The hypotheses of each constructor are the
exact conditions under which `main` renders the corresponding control:
the question interface only renders when the exam is not completed and the
question list is non-empty (src lines 1941-1944, 2027); Submit only in the
unanswered branch with a label from the current options (src lines
2040-2057); the navigation buttons only in the answered branch, Previous
only when `current_question > 0`, Next only when below the last index,
Finish only at the last index (src lines 2100-2123); Try Again in the
answered branch (src line 2125); Shuffle and Reset in the
sidebar/header, rendered for completed and uncompleted exams alike but
after the empty-question early return (src lines 1941-1944, 1957, 2014);
Upload whenever a file parses to a (necessarily non-empty) question list
(src lines 1877-1896). -/
inductive Step : ExamState → Action → ExamState → Prop where
  | submit (s : ExamState) (q : JsonValue) (label : String)
      (hq : currentQuestion s = some q)
      (hc : s.exam_completed = false)
      (ha : s.answered = false)
      (hl : label ∈ optionKeys q) :
      Step s (.submit label) (applySubmit s label)
  | next (s : ExamState)
      (hne : s.questions ≠ [])
      (hc : s.exam_completed = false)
      (ha : s.answered = true)
      (hi : s.current_question < s.questions.length - 1) :
      Step s .next (applyNext s)
  | previous (s : ExamState)
      (hne : s.questions ≠ [])
      (hc : s.exam_completed = false)
      (ha : s.answered = true)
      (hi : 0 < s.current_question) :
      Step s .previous (applyPrevious s)
  | tryAgain (s : ExamState)
      (hne : s.questions ≠ [])
      (hc : s.exam_completed = false)
      (ha : s.answered = true) :
      Step s .tryAgain (applyTryAgain s)
  | finish (s : ExamState)
      (hne : s.questions ≠ [])
      (hc : s.exam_completed = false)
      (ha : s.answered = true)
      (hi : s.current_question = s.questions.length - 1) :
      Step s .finish (applyFinish s)
  | shuffle (s : ExamState) (shuffled : List JsonValue)
      (hne : s.questions ≠ [])
      (hp : s.questions.Perm shuffled) :
      Step s (.shuffle shuffled) (applyShuffle s shuffled)
  | reset (s : ExamState)
      (hne : s.questions ≠ []) :
      Step s .reset (initialize_exam_state s s.questions)
  | upload (s : ExamState) (qs : List JsonValue) (name : String)
      (hne : qs ≠ []) :
      Step s (.upload qs name) (applyUpload s qs name)

/-- A run of the state machine along a list of actions. -/
inductive Trace : ExamState → List Action → ExamState → Prop where
  | nil (s : ExamState) : Trace s [] s
  | cons (s s' s'' : ExamState) (a : Action) (acts : List Action)
      (h : Step s a s') (t : Trace s' acts s'') : Trace s (a :: acts) s''

/-- Reachability from a state by some sequence of transitions. -/
def Reachable (s0 s : ExamState) : Prop := ∃ acts, Trace s0 acts s

/-- Whether the recorded answer in a slot matches its question's correct
answer. -/
def correctSlot (q : JsonValue) (a : Option String) : Bool :=
  match a with
  | some l => answerIsCorrect q l
  | none => false

/-- The number of indices whose recorded answer equals the corresponding
question's correct answer (the quantity the spec equates with `score`). -/
def countCorrect (s : ExamState) : Nat :=
  (s.questions.zip s.user_answers).countP (fun p => correctSlot p.1 p.2)

/-!
## The session store

`save_session_state` (src lines 13-32) pickles a snapshot dict to
`exam_session.pkl`; `load_session_state` (src lines 34-46) unpickles it
only when the file's mtime is less than 24 hours old.  The file on disk is
embedded as `Option (SessionData × Int)` — the snapshot plus its mtime —
and `time.time()` as an integer-second clock. -/

/-- The snapshot dict written by `save_session_state`. -/
structure SessionData : Type where
  questions : List JsonValue
  current_question : Nat
  score : Nat
  answered : Bool
  user_answers : List (Option String)
  exam_completed : Bool
  topics : List (String × Nat)
  questions_loaded : Bool
  last_uploaded_file_name : Option String
  session_timestamp : Int

/-- Embeds `save_session_state` (src lines 13-32): snapshot every tracked
key plus the current time. -/
def save_session_state (s : ExamState) (now : Int) : SessionData :=
  { questions := s.questions
  , current_question := s.current_question
  , score := s.score
  , answered := s.answered
  , user_answers := s.user_answers
  , exam_completed := s.exam_completed
  , topics := s.topics
  , questions_loaded := s.questions_loaded
  , last_uploaded_file_name := s.last_uploaded_file_name
  , session_timestamp := now }

/-- Embeds `load_session_state` (src lines 34-46): return the stored
snapshot only when the file exists and `time.time() - getmtime < 24*3600`;
a missing file, a stale file, or any exception yields `None`. -/
def load_session_state (file : Option (SessionData × Int)) (now : Int) :
    Option SessionData :=
  match file with
  | some (data, mtime) =>
      if now - mtime < 24 * 3600 then some data else none
  | none => none

/-!
## Auxiliary definitions for the verification

Spec-side predicates (clearly marked), concrete sample data for witnesses
and counterexamples, and the restricted traces under which the score
invariant can be established.
-/

/-- Modelled from the spec: the §3 Question invariant — the record "has
`text`, `options` non-empty mapping, `correct_answer` present as a key of
`options`".  No function of the source checks this; it is stated here only
to compare the loader's actual behaviour against the spec's words. -/
def questionInvariant (q : JsonValue) : Bool :=
  match q with
  | .obj fields =>
      (lookupKey fields "question").isSome &&
      (match lookupKey fields "options" with
       | some (.obj opts) =>
           !opts.isEmpty &&
           (match lookupKey fields "correct_answer" with
            | some (.str c) => opts.any (fun p => p.1 = c)
            | _ => false)
       | _ => false)
  | _ => false

/-- A well-formed two-option question whose correct answer is "A". -/
def sampleQuestion1 : JsonValue :=
  JsonValue.obj
    [ ("question", JsonValue.str ("Q1?"))
    , ("options", JsonValue.obj
        [("A", JsonValue.str ("x")), ("B", JsonValue.str ("y"))])
    , ("correct_answer", JsonValue.str ("A")) ]

/-- A second well-formed question, also with correct answer "A". -/
def sampleQuestion2 : JsonValue :=
  JsonValue.obj
    [ ("question", JsonValue.str ("Q2?"))
    , ("options", JsonValue.obj
        [("A", JsonValue.str ("u")), ("B", JsonValue.str ("v"))])
    , ("correct_answer", JsonValue.str ("A")) ]

/-- A one-question bank. -/
def oneQuestionBank : List JsonValue := [sampleQuestion1]

/-- A two-question bank. -/
def twoQuestionBank : List JsonValue := [sampleQuestion1, sampleQuestion2]

/-- A record carrying the three required keys whose `correct_answer` ("B")
is not among its option keys (only "A"): it passes the code's key-presence
check but violates the spec's Question invariant. -/
def badAnswerQuestion : JsonValue :=
  JsonValue.obj
    [ ("question", JsonValue.str ("q"))
    , ("options", JsonValue.obj [("A", JsonValue.str ("x"))])
    , ("correct_answer", JsonValue.str ("B")) ]

/-- A `json.loads` oracle for the concrete inputs of the C8 analysis: the
two-character text `\x7b\x7d` parses to the empty object (as
`json.loads` does) and any other consulted text fails to parse. -/
def loadsCE : String → Option JsonValue :=
  fun text => if text = "\x7b\x7d" then some (JsonValue.obj []) else none

/-- The tail of `parse_uploaded_json` after a successful decode:
`json.loads`, extraction, and the Python truthiness check on the result
(src lines 1789-1798). -/
def parse_decoded (loads : String → Option JsonValue) (text : String) :
    Option (List JsonValue) :=
  match loads text with
  | some data =>
    match extract_questions_from_data data with
    | some questions => if questions.isEmpty then none else some questions
    | none => none
  | none => none

/-- The side conditions under which the spec's score invariant can hold on
this code: the submitted slot is still unanswered (a re-submission after
Try Again or Previous increments `score` again without a decrement), the
questions are never shuffled (shuffling keeps `user_answers` and `score`
while permuting `questions`), and no progress-preserving same-length
upload replaces the questions under recorded answers. -/
def cleanAction (s : ExamState) (a : Action) : Prop :=
  match a with
  | .submit _ => s.user_answers.getD s.current_question none = none
  | .shuffle _ => False
  | .upload qs _ => s.questions.length ≠ qs.length
  | _ => True

/-- A run all of whose steps satisfy `cleanAction`. -/
inductive CleanTrace : ExamState → List Action → ExamState → Prop where
  | nil (s : ExamState) : CleanTrace s [] s
  | cons (s s' s'' : ExamState) (a : Action) (acts : List Action)
      (h : Step s a s') (hclean : cleanAction s a)
      (t : CleanTrace s' acts s'') : CleanTrace s (a :: acts) s''

/-- The index bound the reachable states maintain. -/
def InBounds (s : ExamState) : Prop :=
  s.questions ≠ [] → s.current_question < s.questions.length

/-- The combined invariant for the score analysis: the answer slots stay
aligned with the questions and `score` counts the matching slots. -/
def ScoreInv (s : ExamState) : Prop :=
  s.user_answers.length = s.questions.length ∧ s.score = countCorrect s

/-!
## Theorems
-/

/-- C3: the claim states that every element of the list returned by
`get_fallback_exam_questions` passes `validate_question_structure`.  In
fact the returned list has exactly one element — the wrapper object whose
sole key is "questions" — and that element fails the validation (it lacks
the keys "question", "options" and "correct_answer"), so the built-in
fallback is not a usable question list for the exam state machine: the
code contradicts the function docstring ("Provide comprehensive fallback
exam questions") and every caller, which treats the result as a list of
question records. -/
theorem c3_fallback_sole_element_fails_validation :
    get_fallback_exam_questions.length = 1 ∧
    validate_question_structure
      (get_fallback_exam_questions.headD JsonValue.null) = false :=
  ⟨rfl, rfl⟩

/-- C6: saving an ExamState and loading while the snapshot is inside the
24-hour freshness window returns exactly the stored snapshot, whose
questions, current_question, score, user_answers and exam_completed
fields are those of the saved state. -/
theorem c6_save_load_round_trip (s : ExamState) (tsave tload : Int)
    (h : tload - tsave < 24 * 3600) :
    load_session_state (some (save_session_state s tsave, tsave)) tload =
      some (save_session_state s tsave) ∧
    (save_session_state s tsave).questions = s.questions ∧
    (save_session_state s tsave).current_question = s.current_question ∧
    (save_session_state s tsave).score = s.score ∧
    (save_session_state s tsave).user_answers = s.user_answers ∧
    (save_session_state s tsave).exam_completed = s.exam_completed := by
  refine ⟨?_, rfl, rfl, rfl, rfl, rfl⟩
  simp only [load_session_state]
  rw [if_pos h]

/-- Witness for C6 at a concrete state and clock: save at time 0, load at
time 100. -/
theorem c6_save_load_round_trip_witness :
    ((100 : Int) - 0 < 24 * 3600) ∧
    (load_session_state
        (some (save_session_state (freshState oneQuestionBank) 0, 0)) 100 =
      some (save_session_state (freshState oneQuestionBank) 0) ∧
    (save_session_state (freshState oneQuestionBank) 0).questions =
      (freshState oneQuestionBank).questions ∧
    (save_session_state (freshState oneQuestionBank) 0).current_question =
      (freshState oneQuestionBank).current_question ∧
    (save_session_state (freshState oneQuestionBank) 0).score =
      (freshState oneQuestionBank).score ∧
    (save_session_state (freshState oneQuestionBank) 0).user_answers =
      (freshState oneQuestionBank).user_answers ∧
    (save_session_state (freshState oneQuestionBank) 0).exam_completed =
      (freshState oneQuestionBank).exam_completed) :=
  ⟨by decide, c6_save_load_round_trip (freshState oneQuestionBank) 0 100 (by decide)⟩

/-- C7: the loader returns a stored snapshot exactly when its age is
strictly below 24 hours; a snapshot 24 hours old or older yields no
snapshot. -/
theorem c7_freshness_window (d : SessionData) (mtime now : Int) :
    (24 * 3600 ≤ now - mtime →
      load_session_state (some (d, mtime)) now = none) ∧
    (now - mtime < 24 * 3600 →
      load_session_state (some (d, mtime)) now = some d) := by
  constructor
  · intro h
    simp only [load_session_state]
    rw [if_neg (by omega)]
  · intro h
    simp only [load_session_state]
    rw [if_pos h]

/-- Witness for C7: a snapshot saved at time 0 is rejected when loaded 25
hours (90000 seconds) later and returned when loaded one hour later. -/
theorem c7_freshness_window_witness :
    (24 * 3600 ≤ (90000 : Int) - 0 ∧
      load_session_state
        (some (save_session_state (freshState oneQuestionBank) 0, 0)) 90000 =
        none) ∧
    ((3600 : Int) - 0 < 24 * 3600 ∧
      load_session_state
        (some (save_session_state (freshState oneQuestionBank) 0, 0)) 3600 =
        some (save_session_state (freshState oneQuestionBank) 0)) :=
  ⟨⟨by decide,
      (c7_freshness_window (save_session_state (freshState oneQuestionBank) 0)
        0 90000).1 (by decide)⟩,
    ⟨by decide,
      (c7_freshness_window (save_session_state (freshState oneQuestionBank) 0)
        0 3600).2 (by decide)⟩⟩

/-- C10: the upload handler with a new list of the same length as the
current one swaps the questions in place and leaves current_question,
user_answers, score, answered and exam_completed unchanged; with a
different length it resets all progress fields to their initial values. -/
theorem c10_upload_preserves_or_resets (s : ExamState)
    (qs : List JsonValue) (name : String) (s2 : ExamState)
    (h : Step s (Action.upload qs name) s2) :
    (s.questions.length = qs.length →
      s2.questions = qs ∧
      s2.current_question = s.current_question ∧
      s2.user_answers = s.user_answers ∧
      s2.score = s.score ∧
      s2.answered = s.answered ∧
      s2.exam_completed = s.exam_completed) ∧
    (s.questions.length ≠ qs.length →
      s2.questions = qs ∧
      s2.current_question = 0 ∧
      s2.user_answers = List.replicate qs.length none ∧
      s2.score = 0 ∧
      s2.answered = false ∧
      s2.exam_completed = false) := by
  cases h with
  | upload qs name hne =>
    constructor
    · intro hlen
      simp only [applyUpload]
      rw [if_pos hlen]
      exact ⟨rfl, rfl, rfl, rfl, rfl, rfl⟩
    · intro hlen
      simp only [applyUpload]
      rw [if_neg hlen]
      exact ⟨rfl, rfl, rfl, rfl, rfl, rfl⟩

/-- Witness for C10: uploading a same-length bank over a fresh two-question
state preserves the progress fields; uploading a one-question bank over it
resets them. -/
theorem c10_upload_witness :
    ((freshState twoQuestionBank).questions.length = twoQuestionBank.length ∧
      ((applyUpload (freshState twoQuestionBank) twoQuestionBank
          ("f.json")).questions = twoQuestionBank ∧
        (applyUpload (freshState twoQuestionBank) twoQuestionBank
          ("f.json")).current_question =
          (freshState twoQuestionBank).current_question ∧
        (applyUpload (freshState twoQuestionBank) twoQuestionBank
          ("f.json")).user_answers =
          (freshState twoQuestionBank).user_answers ∧
        (applyUpload (freshState twoQuestionBank) twoQuestionBank
          ("f.json")).score = (freshState twoQuestionBank).score ∧
        (applyUpload (freshState twoQuestionBank) twoQuestionBank
          ("f.json")).answered = (freshState twoQuestionBank).answered ∧
        (applyUpload (freshState twoQuestionBank) twoQuestionBank
          ("f.json")).exam_completed =
          (freshState twoQuestionBank).exam_completed)) ∧
    ((freshState twoQuestionBank).questions.length ≠ oneQuestionBank.length ∧
      ((applyUpload (freshState twoQuestionBank) oneQuestionBank
          ("g.json")).questions = oneQuestionBank ∧
        (applyUpload (freshState twoQuestionBank) oneQuestionBank
          ("g.json")).current_question = 0 ∧
        (applyUpload (freshState twoQuestionBank) oneQuestionBank
          ("g.json")).user_answers =
          List.replicate oneQuestionBank.length none ∧
        (applyUpload (freshState twoQuestionBank) oneQuestionBank
          ("g.json")).score = 0 ∧
        (applyUpload (freshState twoQuestionBank) oneQuestionBank
          ("g.json")).answered = false ∧
        (applyUpload (freshState twoQuestionBank) oneQuestionBank
          ("g.json")).exam_completed = false)) :=
  ⟨⟨rfl,
      (c10_upload_preserves_or_resets (freshState twoQuestionBank)
        twoQuestionBank ("f.json") _
        (Step.upload _ _ _ (List.cons_ne_nil _ _))).1 rfl⟩,
    ⟨by decide,
      (c10_upload_preserves_or_resets (freshState twoQuestionBank)
        oneQuestionBank ("g.json") _
        (Step.upload _ _ _ (List.cons_ne_nil _ _))).2 (by decide)⟩⟩

/-- C5 counterexample: the claim asserts the shuffle transition requires
the exam not to be completed.  The Shuffle Questions button lives in the
always-rendered sidebar, so shuffle fires from a completed state: here a
one-question exam is answered and finished — `exam_completed` is true —
and the shuffle transition still takes a step. -/
theorem c5_counterexample_shuffle_when_completed :
    Trace (freshState oneQuestionBank) [Action.submit ("A"), Action.finish]
      (applyFinish (applySubmit (freshState oneQuestionBank) ("A"))) ∧
    (applyFinish (applySubmit (freshState oneQuestionBank)
      ("A"))).exam_completed = true ∧
    Step (applyFinish (applySubmit (freshState oneQuestionBank) ("A")))
      (Action.shuffle oneQuestionBank)
      (applyShuffle (applyFinish (applySubmit (freshState oneQuestionBank)
        ("A"))) oneQuestionBank) := by
  refine ⟨?_, rfl, ?_⟩
  · exact Trace.cons _ _ _ _ _
      (Step.submit _ sampleQuestion1 _ rfl rfl rfl (by decide))
      (Trace.cons _ _ _ _ _
        (Step.finish _ (List.cons_ne_nil _ _) rfl rfl rfl)
        (Trace.nil _))
  · exact Step.shuffle _ _ (List.cons_ne_nil _ _) (List.Perm.refl _)

/-- C5 as amended: the shuffle transition (enabled whenever the question
list is non-empty, completed or not) permutes the questions, resets
current_question to 0 and answered to false, and leaves user_answers,
score and exam_completed unchanged. -/
theorem c5_shuffle_effect (s : ExamState) (shuffled : List JsonValue)
    (s2 : ExamState) (h : Step s (Action.shuffle shuffled) s2) :
    s.questions.Perm s2.questions ∧
    s2.current_question = 0 ∧
    s2.answered = false ∧
    s2.user_answers = s.user_answers ∧
    s2.score = s.score ∧
    s2.exam_completed = s.exam_completed := by
  cases h with
  | shuffle shuffled hne hp => exact ⟨hp, rfl, rfl, rfl, rfl, rfl⟩

/-- Witness for C5: shuffling a fresh two-question exam into the swapped
order. -/
theorem c5_shuffle_effect_witness :
    (freshState twoQuestionBank).questions.Perm
      (applyShuffle (freshState twoQuestionBank)
        [sampleQuestion2, sampleQuestion1]).questions ∧
    (applyShuffle (freshState twoQuestionBank)
      [sampleQuestion2, sampleQuestion1]).current_question = 0 ∧
    (applyShuffle (freshState twoQuestionBank)
      [sampleQuestion2, sampleQuestion1]).answered = false ∧
    (applyShuffle (freshState twoQuestionBank)
      [sampleQuestion2, sampleQuestion1]).user_answers =
      (freshState twoQuestionBank).user_answers ∧
    (applyShuffle (freshState twoQuestionBank)
      [sampleQuestion2, sampleQuestion1]).score =
      (freshState twoQuestionBank).score ∧
    (applyShuffle (freshState twoQuestionBank)
      [sampleQuestion2, sampleQuestion1]).exam_completed =
      (freshState twoQuestionBank).exam_completed :=
  c5_shuffle_effect (freshState twoQuestionBank) _ _
    (Step.shuffle _ _ (List.cons_ne_nil _ _) (List.Perm.swap _ _ _))

/-- C4 counterexample: the claim asserts that previous() sets
answeredCurrent to true when the new index already has a recorded answer.
Submit Q1, go next, submit Q2, go previous: index 0 has a recorded answer,
yet the handler sets `answered` to false unconditionally (the code instead
pre-selects the recorded answer in the re-opened radio widget). -/
theorem c4_counterexample_previous_clears_answered :
    Trace (freshState twoQuestionBank)
      [Action.submit ("A"), Action.next, Action.submit ("A"),
        Action.previous]
      (applyPrevious (applySubmit (applyNext (applySubmit
        (freshState twoQuestionBank) ("A"))) ("A"))) ∧
    (applyPrevious (applySubmit (applyNext (applySubmit
      (freshState twoQuestionBank) ("A"))) ("A"))).current_question = 0 ∧
    (applyPrevious (applySubmit (applyNext (applySubmit
      (freshState twoQuestionBank) ("A"))) ("A"))).user_answers.getD 0 none =
      some ("A") ∧
    (applyPrevious (applySubmit (applyNext (applySubmit
      (freshState twoQuestionBank) ("A"))) ("A"))).answered = false := by
  refine ⟨?_, rfl, rfl, rfl⟩
  exact Trace.cons _ _ _ _ _
    (Step.submit _ sampleQuestion1 _ rfl rfl rfl (by decide))
    (Trace.cons _ _ _ _ _
      (Step.next _ (List.cons_ne_nil _ _) rfl rfl (by decide))
      (Trace.cons _ _ _ _ _
        (Step.submit _ sampleQuestion2 _ rfl rfl rfl (by decide))
        (Trace.cons _ _ _ _ _
          (Step.previous _ (List.cons_ne_nil _ _) rfl rfl (by decide))
          (Trace.nil _))))

/-- C4 as amended: previous() decrements current_question by one and sets
answered to false unconditionally — also when the new index already has a
recorded answer — leaving questions, user_answers, score and
exam_completed unchanged. -/
theorem c4_previous_effect (s s2 : ExamState)
    (h : Step s Action.previous s2) :
    s2.current_question = s.current_question - 1 ∧
    s2.answered = false ∧
    s2.questions = s.questions ∧
    s2.user_answers = s.user_answers ∧
    s2.score = s.score ∧
    s2.exam_completed = s.exam_completed := by
  cases h with
  | previous hne hc ha hi => exact ⟨rfl, rfl, rfl, rfl, rfl, rfl⟩

/-- Witness for C4: going previous from the answered second question of a
two-question exam. -/
theorem c4_previous_effect_witness :
    (applyPrevious (applySubmit (applyNext (applySubmit
      (freshState twoQuestionBank) ("A"))) ("B"))).current_question =
      (applySubmit (applyNext (applySubmit (freshState twoQuestionBank)
        ("A"))) ("B")).current_question - 1 ∧
    (applyPrevious (applySubmit (applyNext (applySubmit
      (freshState twoQuestionBank) ("A"))) ("B"))).answered = false ∧
    (applyPrevious (applySubmit (applyNext (applySubmit
      (freshState twoQuestionBank) ("A"))) ("B"))).questions =
      (applySubmit (applyNext (applySubmit (freshState twoQuestionBank)
        ("A"))) ("B")).questions ∧
    (applyPrevious (applySubmit (applyNext (applySubmit
      (freshState twoQuestionBank) ("A"))) ("B"))).user_answers =
      (applySubmit (applyNext (applySubmit (freshState twoQuestionBank)
        ("A"))) ("B")).user_answers ∧
    (applyPrevious (applySubmit (applyNext (applySubmit
      (freshState twoQuestionBank) ("A"))) ("B"))).score =
      (applySubmit (applyNext (applySubmit (freshState twoQuestionBank)
        ("A"))) ("B")).score ∧
    (applyPrevious (applySubmit (applyNext (applySubmit
      (freshState twoQuestionBank) ("A"))) ("B"))).exam_completed =
      (applySubmit (applyNext (applySubmit (freshState twoQuestionBank)
        ("A"))) ("B")).exam_completed :=
  c4_previous_effect _ _
    (Step.previous _ (List.cons_ne_nil _ _) rfl rfl (by decide))

/-- A list found by the priority-key loop is non-empty and has a
validating first element. -/
theorem findKeyQuestions_sound (fields : List (String × JsonValue)) :
    ∀ (keys : List String) (qs : List JsonValue),
    findKeyQuestions fields keys = some qs →
    qs ≠ [] ∧
      validate_question_structure (qs.headD JsonValue.null) = true := by
  intro keys
  induction keys with
  | nil => intro qs h; simp [findKeyQuestions] at h
  | cons key rest ih =>
    intro qs h
    simp only [findKeyQuestions] at h
    split at h
    · rename_i q qtail heq
      split at h
      · rename_i hval
        cases h
        exact ⟨List.cons_ne_nil _ _, hval⟩
      · exact ih qs h
    · exact ih qs h

/-- A list found by the value-scanning loop is non-empty and has a
validating first element. -/
theorem scanValues_sound :
    ∀ (fields : List (String × JsonValue)) (qs : List JsonValue),
    scanValues fields = some qs →
    qs ≠ [] ∧
      validate_question_structure (qs.headD JsonValue.null) = true := by
  intro fields
  induction fields with
  | nil => intro qs h; simp [scanValues] at h
  | cons field rest ih =>
    intro qs h
    obtain ⟨fname, fval⟩ := field
    cases fval with
    | arr xs =>
      cases xs with
      | nil =>
        simp only [scanValues] at h
        exact ih qs h
      | cons q qtail =>
        simp only [scanValues] at h
        split at h
        · rename_i hval
          cases h
          exact ⟨List.cons_ne_nil _ _, hval⟩
        · exact ih qs h
    | null => simp only [scanValues] at h; exact ih qs h
    | bool b => simp only [scanValues] at h; exact ih qs h
    | num n => simp only [scanValues] at h; exact ih qs h
    | str t => simp only [scanValues] at h; exact ih qs h
    | obj fields2 => simp only [scanValues] at h; exact ih qs h

/-- C2 as amended: when extraction succeeds, the returned sequence is
non-empty and its FIRST element passes the key-presence check (contains
the keys question, options and correct_answer); a top-level list input is
returned whole, so no later record is checked or dropped — in particular
no correct_answer-in-options check is performed anywhere. -/
theorem c2_extract_success_head_validated (d : JsonValue)
    (qs : List JsonValue) (h : extract_questions_from_data d = some qs) :
    qs ≠ [] ∧
    validate_question_structure (qs.headD JsonValue.null) = true ∧
    (∀ (q : JsonValue) (rest : List JsonValue),
      d = JsonValue.arr (q :: rest) → qs = q :: rest) := by
  cases d with
  | arr xs =>
    cases xs with
    | nil => simp [extract_questions_from_data] at h
    | cons q rest =>
      simp only [extract_questions_from_data] at h
      split at h
      · rename_i hval
        cases h
        refine ⟨List.cons_ne_nil _ _, hval, ?_⟩
        intro q2 rest2 heq
        exact JsonValue.arr.inj heq
      · cases h
  | obj fields =>
    simp only [extract_questions_from_data] at h
    have hnotarr : ∀ (q : JsonValue) (rest : List JsonValue),
        JsonValue.obj fields = JsonValue.arr (q :: rest) → qs = q :: rest := by
      intro q rest heq
      exact JsonValue.noConfusion heq
    split at h
    · rename_i found heq
      cases h
      obtain ⟨h1, h2⟩ := findKeyQuestions_sound fields possible_keys _ heq
      exact ⟨h1, h2, hnotarr⟩
    · obtain ⟨h1, h2⟩ := scanValues_sound fields qs h
      exact ⟨h1, h2, hnotarr⟩
  | null => simp [extract_questions_from_data] at h
  | bool b => simp [extract_questions_from_data] at h
  | num n => simp [extract_questions_from_data] at h
  | str t => simp [extract_questions_from_data] at h

/-- Witness for C2 as amended: extracting from a top-level one-question
list. -/
theorem c2_extract_success_witness :
    extract_questions_from_data (JsonValue.arr [sampleQuestion1]) =
      some [sampleQuestion1] ∧
    ([sampleQuestion1] ≠ ([] : List JsonValue) ∧
      validate_question_structure
        (([sampleQuestion1] : List JsonValue).headD JsonValue.null) = true ∧
      (∀ (q : JsonValue) (rest : List JsonValue),
        JsonValue.arr [sampleQuestion1] = JsonValue.arr (q :: rest) →
          [sampleQuestion1] = q :: rest)) :=
  ⟨rfl, c2_extract_success_head_validated (JsonValue.arr [sampleQuestion1])
    [sampleQuestion1] rfl⟩

/-- C2 counterexample: a record whose correct_answer ("B") is not a key of
its options passes the loader (which checks key presence only) and is
returned rather than dropped, violating the claimed Question invariant. -/
theorem c2_counterexample_invalid_record_returned :
    extract_questions_from_data (JsonValue.arr [badAnswerQuestion]) =
      some [badAnswerQuestion] ∧
    questionInvariant badAnswerQuestion = false :=
  ⟨rfl, rfl⟩

/-- C8 as amended: the byte loader attempts UTF-8 first (when UTF-8
succeeds, the result is computed from the UTF-8 text and latin-1 is never
consulted), falls back to exactly latin-1 when UTF-8 fails, and on any
failure returns no questions (None) rather than the fallback set; the
built-in default set is returned by the startup file loader
`load_questions_from_json` on any failure, so neither loading path
propagates an exception. -/
theorem c8_decode_order_and_fallback
    (loads : String → Option JsonValue) (content : List Nat)
    (d : JsonValue) :
    (∀ text, utf8_decode content = some text →
      parse_uploaded_json loads content = parse_decoded loads text) ∧
    (utf8_decode content = none →
      parse_uploaded_json loads content =
        parse_decoded loads (latin1_decode content)) ∧
    (extract_questions_from_data d = none →
      load_questions_from_json (some d) = get_fallback_exam_questions) ∧
    load_questions_from_json none = get_fallback_exam_questions := by
  refine ⟨?_, ?_, ?_, rfl⟩
  · intro text h
    simp only [parse_uploaded_json, parse_decoded, h]
  · intro h
    simp only [parse_uploaded_json, parse_decoded, h]
  · intro h
    simp only [load_questions_from_json, h]

/-- Witness for C8: ASCII bytes 123,125 decode as UTF-8 (to the two
braces) and take the UTF-8 path; the lone byte 255 is invalid UTF-8 and
takes the latin-1 path; extraction fails on the empty object and the
startup loader then returns the fallback set. -/
theorem c8_decode_order_witness :
    (utf8_decode [123, 125] = some ("\x7b\x7d") ∧
      parse_uploaded_json loadsCE [123, 125] =
        parse_decoded loadsCE ("\x7b\x7d")) ∧
    (utf8_decode [255] = none ∧
      parse_uploaded_json loadsCE [255] =
        parse_decoded loadsCE (latin1_decode [255])) ∧
    (extract_questions_from_data (JsonValue.obj []) = none ∧
      load_questions_from_json (some (JsonValue.obj [])) =
        get_fallback_exam_questions) :=
  ⟨⟨by decide,
      (c8_decode_order_and_fallback loadsCE [123, 125]
        (JsonValue.obj [])).1 _ (by decide)⟩,
    ⟨by decide,
      (c8_decode_order_and_fallback loadsCE [255]
        (JsonValue.obj [])).2.1 (by decide)⟩,
    ⟨rfl,
      (c8_decode_order_and_fallback loadsCE [123, 125]
        (JsonValue.obj [])).2.2.1 rfl⟩⟩

/-- C8 counterexample: the claim asserts that on any loading failure the
loader returns the built-in default question set.  Uploading the valid
JSON text consisting of bytes 123,125 (the empty object) decodes and
parses fine, extraction finds no questions, and `parse_uploaded_json`
returns None — not the fallback set — leaving the current questions in
place. -/
theorem c8_counterexample_failure_returns_none :
    parse_uploaded_json loadsCE [123, 125] = none ∧
    (none : Option (List JsonValue)) ≠ some get_fallback_exam_questions :=
  ⟨rfl, fun hcontr => Option.noConfusion hcontr⟩

/-- Every transition keeps the current index inside the question list. -/
theorem step_preserves_inBounds (s s2 : ExamState) (a : Action)
    (h : Step s a s2) (hs : InBounds s) : InBounds s2 := by
  cases h with
  | submit q label hq hc ha hl => exact hs
  | next hne hc ha hi =>
    intro hne2
    show s.current_question + 1 < s.questions.length
    omega
  | previous hne hc ha hi =>
    intro hne2
    have := hs hne
    show s.current_question - 1 < s.questions.length
    omega
  | tryAgain hne hc ha => exact hs
  | finish hne hc ha hi => exact hs
  | shuffle shuffled hne hp =>
    intro hne2
    show 0 < shuffled.length
    exact List.length_pos.mpr hne2
  | reset hne =>
    intro hne2
    show 0 < s.questions.length
    exact List.length_pos.mpr hne
  | upload qs name hne =>
    by_cases hlen : s.questions.length = qs.length
    · have heq : applyUpload s qs name =
        { s with last_uploaded_file_name := some name, questions := qs } := by
        simp only [applyUpload]
        rw [if_pos hlen]
      rw [heq]
      intro hne2
      show s.current_question < qs.length
      have h1 : 0 < qs.length := List.length_pos.mpr hne
      have h2 : 0 < s.questions.length := by omega
      have := hs (List.length_pos.mp h2)
      omega
    · have heq : applyUpload s qs name =
        initialize_exam_state
          { s with last_uploaded_file_name := some name } qs := by
        simp only [applyUpload]
        rw [if_neg hlen]
      rw [heq]
      intro hne2
      show 0 < qs.length
      exact List.length_pos.mpr hne

/-- The index bound is preserved along any run. -/
theorem trace_preserves_inBounds (s0 : ExamState) (acts : List Action)
    (s : ExamState) (h : Trace s0 acts s) : InBounds s0 → InBounds s := by
  induction h with
  | nil s => exact fun hs => hs
  | cons s s' s'' a acts hstep htail ih =>
    intro hs
    exact ih (step_preserves_inBounds _ _ _ hstep hs)

/-- C9: in every state reachable from a fresh initialization over a
non-empty question list the current index stays within bounds, and the
guarded transitions cannot fire outside their preconditions: next on the
last question, previous on the first question, and finish while the
current question is unanswered are all impossible. -/
theorem c9_current_index_in_bounds (qs : List JsonValue) (s : ExamState)
    (h : Reachable (freshState qs) s) :
    (s.questions ≠ [] → s.current_question < s.questions.length) ∧
    (s.current_question = s.questions.length - 1 →
      ∀ s2, ¬ Step s Action.next s2) ∧
    (s.current_question = 0 → ∀ s2, ¬ Step s Action.previous s2) ∧
    (s.answered = false → ∀ s2, ¬ Step s Action.finish s2) := by
  refine ⟨?_, ?_, ?_, ?_⟩
  · obtain ⟨acts, ht⟩ := h
    refine trace_preserves_inBounds _ _ _ ht ?_
    intro hne
    show 0 < qs.length
    exact List.length_pos.mpr hne
  · intro hlast s2 hstep
    cases hstep with
    | next hne hc ha hi => omega
  · intro h0 s2 hstep
    cases hstep with
    | previous hne hc ha hi => omega
  · intro hans s2 hstep
    cases hstep with
    | finish hne hc ha hi =>
      rw [hans] at ha
      exact Bool.noConfusion ha

/-- Witness for C9 at the freshly initialized one-question exam (reachable
by the empty run): the index is in bounds and next, previous and finish
are all disabled (index 0 is both first and last, and nothing is
answered). -/
theorem c9_current_index_in_bounds_witness :
    (freshState oneQuestionBank).current_question <
      (freshState oneQuestionBank).questions.length ∧
    (∀ s2, ¬ Step (freshState oneQuestionBank) Action.next s2) ∧
    (∀ s2, ¬ Step (freshState oneQuestionBank) Action.previous s2) ∧
    (∀ s2, ¬ Step (freshState oneQuestionBank) Action.finish s2) := by
  have C := c9_current_index_in_bounds oneQuestionBank
    (freshState oneQuestionBank) ⟨[], Trace.nil _⟩
  exact ⟨C.1 (List.cons_ne_nil _ _), C.2.1 rfl, C.2.2.1 rfl, C.2.2.2 rfl⟩

/-- While every slot is unanswered, no slot counts as correct. -/
theorem countCorrect_replicate_none (qs : List JsonValue) (n : Nat) :
    (qs.zip (List.replicate n none)).countP
      (fun p => correctSlot p.1 p.2) = 0 := by
  induction qs generalizing n with
  | nil => simp
  | cons q rest ih =>
    cases n with
    | zero => simp
    | succ m =>
      simp only [List.replicate, List.zip_cons_cons, List.countP_cons, ih m]
      simp [correctSlot]

/-- Writing a label into a previously unanswered slot adds exactly the
correctness of that label to the count of correct slots. -/
theorem countCorrect_set_fresh (qs : List JsonValue) :
    ∀ (answers : List (Option String)) (i : Nat) (q : JsonValue)
      (l : String),
    qs.get? i = some q → answers.get? i = some none →
    (qs.zip (answers.set i (some l))).countP
        (fun p => correctSlot p.1 p.2) =
      (qs.zip answers).countP (fun p => correctSlot p.1 p.2) +
        (if answerIsCorrect q l then 1 else 0) := by
  induction qs with
  | nil => intro answers i q l hq ha; simp at hq
  | cons q0 rest ih =>
    intro answers i q l hq ha
    cases answers with
    | nil => simp at ha
    | cons a0 arest =>
      cases i with
      | zero =>
        simp only [List.get?] at hq ha
        obtain rfl : q0 = q := Option.some.inj hq
        obtain rfl : a0 = none := Option.some.inj ha
        simp only [List.set_cons_zero, List.zip_cons_cons, List.countP_cons]
        simp [correctSlot]
      | succ j =>
        simp only [List.get?] at hq ha
        simp only [List.set_cons_succ, List.zip_cons_cons,
          List.countP_cons, ih arest j q l hq ha]
        omega

/-- A clean transition preserves the score invariant. -/
theorem step_preserves_scoreInv (s s2 : ExamState) (a : Action)
    (h : Step s a s2) (hclean : cleanAction s a) (hs : ScoreInv s) :
    ScoreInv s2 := by
  obtain ⟨hlen, hscore⟩ := hs
  cases h with
  | submit q label hq hc ha hl =>
    have hq2 : s.questions.get? s.current_question = some q := hq
    have hidx : s.current_question < s.questions.length := by
      by_contra hge
      rw [List.get?_eq_none.mpr (Nat.le_of_not_lt hge)] at hq2
      exact Option.noConfusion hq2
    have hfresh : s.user_answers.get? s.current_question = some none := by
      have hgd : s.user_answers.getD s.current_question none = none := hclean
      cases hx : s.user_answers.get? s.current_question with
      | none =>
        exfalso
        have := List.get?_eq_none.mp hx
        omega
      | some v =>
        simp only [List.getD, hx, Option.getD_some] at hgd
        rw [hgd]
    constructor
    · show (s.user_answers.set s.current_question (some label)).length =
        s.questions.length
      rw [List.length_set]
      exact hlen
    · show (match currentQuestion s with
            | some q2 => if answerIsCorrect q2 label then s.score + 1
              else s.score
            | none => s.score) =
        (s.questions.zip (s.user_answers.set s.current_question
          (some label))).countP (fun p => correctSlot p.1 p.2)
      rw [hq]
      rw [countCorrect_set_fresh s.questions s.user_answers
        s.current_question q label hq2 hfresh]
      rw [countCorrect] at hscore
      cases hcor : answerIsCorrect q label with
      | true => simp [hcor, ← hscore]
      | false => simp [hcor, ← hscore]
  | next hne hc ha hi => exact ⟨hlen, hscore⟩
  | previous hne hc ha hi => exact ⟨hlen, hscore⟩
  | tryAgain hne hc ha => exact ⟨hlen, hscore⟩
  | finish hne hc ha hi => exact ⟨hlen, hscore⟩
  | shuffle shuffled hne hp => exact False.elim hclean
  | reset hne =>
    constructor
    · show (List.replicate s.questions.length none).length =
        s.questions.length
      exact List.length_replicate _ _
    · show (0 : Nat) =
        (s.questions.zip (List.replicate s.questions.length none)).countP
          (fun p => correctSlot p.1 p.2)
      exact (countCorrect_replicate_none s.questions s.questions.length).symm
  | upload qs name hne =>
    have hne2 : ¬ s.questions.length = qs.length := hclean
    have heq : applyUpload s qs name =
        initialize_exam_state
          { s with last_uploaded_file_name := some name } qs := by
      simp only [applyUpload]
      rw [if_neg hne2]
    rw [heq]
    constructor
    · show (List.replicate qs.length none).length = qs.length
      exact List.length_replicate _ _
    · show (0 : Nat) =
        (qs.zip (List.replicate qs.length none)).countP
          (fun p => correctSlot p.1 p.2)
      exact (countCorrect_replicate_none qs qs.length).symm

/-- The score invariant is preserved along any clean run. -/
theorem cleanTrace_preserves_scoreInv (s0 : ExamState)
    (acts : List Action) (s : ExamState) (h : CleanTrace s0 acts s) :
    ScoreInv s0 → ScoreInv s := by
  induction h with
  | nil s => exact fun hs => hs
  | cons s s' s'' a acts hstep hclean htail ih =>
    intro hs
    exact ih (step_preserves_scoreInv _ _ _ hstep hclean hs)

/-- C1 as amended: in every state reachable from a fresh initialization
by a trace in which each submit lands on a still-unanswered slot, no
shuffle occurs and no same-length (progress-preserving) upload occurs,
the score equals the number of indices whose recorded answer matches
that question's correct answer.  (On other traces the claim fails: a
re-submission after Try Again or Previous increments score again without
a decrement, and a shuffle or same-length upload re-pairs the recorded
answers with different questions — see the counterexample.) -/
theorem c1_score_counts_correct_answers_on_clean_traces
    (qs : List JsonValue) (acts : List Action) (s : ExamState)
    (h : CleanTrace (freshState qs) acts s) :
    s.score = countCorrect s := by
  refine (cleanTrace_preserves_scoreInv _ _ _ h ⟨?_, ?_⟩).2
  · show (List.replicate qs.length none).length = qs.length
    exact List.length_replicate _ _
  · show (0 : Nat) =
      (qs.zip (List.replicate qs.length none)).countP
        (fun p => correctSlot p.1 p.2)
    exact (countCorrect_replicate_none qs qs.length).symm

/-- Witness for C1 as amended: answer both questions of a fresh
two-question exam once each (first correctly, then incorrectly) along a
clean trace; the final score equals the count of matching recorded
answers. -/
theorem c1_clean_trace_witness :
    (applySubmit (applyNext (applySubmit (freshState twoQuestionBank)
      ("A"))) ("B")).score =
      countCorrect (applySubmit (applyNext (applySubmit
        (freshState twoQuestionBank) ("A"))) ("B")) :=
  c1_score_counts_correct_answers_on_clean_traces twoQuestionBank
    [Action.submit ("A"), Action.next, Action.submit ("B")] _
    (CleanTrace.cons _ _ _ _ _
      (Step.submit _ sampleQuestion1 _ rfl rfl rfl (by decide)) rfl
      (CleanTrace.cons _ _ _ _ _
        (Step.next _ (List.cons_ne_nil _ _) rfl rfl (by decide)) trivial
        (CleanTrace.cons _ _ _ _ _
          (Step.submit _ sampleQuestion2 _ rfl rfl rfl (by decide))
          rfl
          (CleanTrace.nil _))))

/-- C1 counterexample: answer the single question correctly, press Try
Again, answer correctly again — the resulting reachable state has score 2
while exactly one recorded answer matches its question, so the claimed
equality fails (the handler increments score on every correct submission
and never decrements). -/
theorem c1_counterexample_double_count :
    Trace (freshState oneQuestionBank)
      [Action.submit ("A"), Action.tryAgain, Action.submit ("A")]
      (applySubmit (applyTryAgain (applySubmit (freshState oneQuestionBank)
        ("A"))) ("A")) ∧
    (applySubmit (applyTryAgain (applySubmit (freshState oneQuestionBank)
      ("A"))) ("A")).score = 2 ∧
    countCorrect (applySubmit (applyTryAgain (applySubmit
      (freshState oneQuestionBank) ("A"))) ("A")) = 1 := by
  refine ⟨?_, rfl, rfl⟩
  exact Trace.cons _ _ _ _ _
    (Step.submit _ sampleQuestion1 _ rfl rfl rfl (by decide))
    (Trace.cons _ _ _ _ _
      (Step.tryAgain _ (List.cons_ne_nil _ _) rfl rfl)
      (Trace.cons _ _ _ _ _
        (Step.submit _ sampleQuestion1 _ rfl rfl rfl (by decide))
        (Trace.nil _)))

end ExamApp
